import Mathlib

/-!
# Cookie session authentication scheme (`lib/index.js`)

A shallow embedding of the `shared-cookie` hapi authentication scheme:
the JavaScript values it manipulates, the library calls it makes
(`@hapi/boom`, `@hapi/bounce`, `@hapi/hoek`, `@hapi/validate`), the scheme
factory `internals.implementation` and the `authenticate` operation.
-/

namespace Cookie

/-! ## JavaScript values -/

/-- Constructor chain of an `Error` instance, as far as `instanceof` can tell
them apart in this program. `HoekError` is the class thrown by `Hoek.assert`,
`AssertionError` the one of node's `assert`; every other error class counts as
`Error`. -/
inductive ErrClass
  | Error
  | EvalError
  | RangeError
  | ReferenceError
  | SyntaxErr
  | TypeError
  | URIError
  | AssertionError
  | HoekError
  deriving DecidableEq, Repr

/-- What kind of object a non-primitive value is. -/
inductive ObjClass
  | plain
  | array
  | error (c : ErrClass)
  deriving DecidableEq, Repr

/-- Function values are compared by identity. `BoomUnauthorized` is the library
function `Boom.unauthorized`; `user n` is the n-th function of the embedding
application. -/
inductive FuncRef
  | BoomUnauthorized
  | user (id : Nat)
  deriving DecidableEq, Repr

mutual
/-- A JavaScript value. Numbers are rationals, `NaN` or an infinity. -/
inductive JSVal
  | undefined
  | null
  | bool (b : Bool)
  | num (q : Rat)
  | nan
  | inf (negative : Bool)
  | str (s : String)
  | func (f : FuncRef)
  | obj (cls : ObjClass) (props : Props)
/-- The own properties of an object, most recently written first. -/
inductive Props
  | nil
  | cons (key : String) (val : JSVal) (rest : Props)
end

deriving instance DecidableEq for JSVal, Props

namespace Props

/-- Own-property read `o[key]`; `undefined` when the key is absent. -/
def get : Props → String → JSVal
  | nil, _ => JSVal.undefined
  | cons k v rest, key => if k = key then v else get rest key

/-- `Object.prototype.hasOwnProperty.call(o, key)` on the property list. -/
def has : Props → String → Bool
  | nil, _ => false
  | cons k _ rest, key => if k = key then true else has rest key

/-- `delete o[key]`. -/
def erase : Props → String → Props
  | nil, _ => nil
  | cons k v rest, key => if k = key then erase rest key else cons k v (erase rest key)

/-- `o[key] = v`. -/
def set (p : Props) (key : String) (v : JSVal) : Props :=
  cons key v (erase p key)

/-- The property list of an object literal. -/
def ofList : List (String × JSVal) → Props
  | [] => nil
  | (k, v) :: rest => cons k v (ofList rest)

/-- The own keys, in order. -/
def keys : Props → List String
  | nil => []
  | cons k _ rest => k :: keys rest

end Props

namespace JSVal

/-- An object literal `{k: v, ...}`. -/
def object (l : List (String × JSVal)) : JSVal :=
  obj ObjClass.plain (Props.ofList l)

/-- JavaScript truthiness (`!!v`). -/
def truthy : JSVal → Bool
  | undefined => false
  | null => false
  | bool b => b
  | num q => decide (q ≠ 0)
  | nan => false
  | inf _ => true
  | str s => decide (s ≠ "")
  | func _ => true
  | obj _ _ => true

/-- The `typeof` operator. -/
def typeOf : JSVal → String
  | undefined => "undefined"
  | null => "object"
  | bool _ => "boolean"
  | num _ => "number"
  | nan => "number"
  | inf _ => "number"
  | str _ => "string"
  | func _ => "function"
  | obj _ _ => "object"

/-- Property read `v.key` on a value that is neither `null` nor `undefined`.
Only own properties are modelled: none of the keys this program reads
(`valid`, `credentials`, `isBoom`, `typeof`, cookie names) is taken to be
inherited from a prototype. -/
def getProp : JSVal → String → JSVal
  | obj _ p, key => p.get key
  | _, _ => undefined

/-- Property write `v.key = x` on an object. -/
def setProp : JSVal → String → JSVal → JSVal
  | obj c p, key, x => obj c (p.set key x)
  | v, _, _ => v

/-- The operator `a || b`. -/
def or (a b : JSVal) : JSVal :=
  if a.truthy then a else b

/-- The operator `a ?? b`. -/
def nullish (a b : JSVal) : JSVal :=
  match a with
  | undefined => b
  | null => b
  | _ => a

/-- `v instanceof Error`. -/
def isError : JSVal → Bool
  | obj (ObjClass.error _) _ => true
  | _ => false

/-- A freshly constructed error of class `c` with the given message. -/
def mkError (c : ErrClass) (msg : String) : JSVal :=
  obj (ObjClass.error c) (Props.ofList [("message", str msg)])

end JSVal

open JSVal

/-! ## Library calls made by the scheme -/

namespace Boom

/-- The function object `Boom.unauthorized`, which boom stores in the `typeof`
property of every error it builds through that function. -/
def unauthorizedFn : JSVal := JSVal.func FuncRef.BoomUnauthorized

/-- `Boom.unauthorized(message, scheme)` of `@hapi/boom`, for the call shapes of
this program (`message` is `null` or a string, `scheme` is absent or a string).
The result is an `Error` decorated with `isBoom`, `typeof`, `data` and a 401
`output`. Without a scheme the error carries the message and no header; with a
scheme and no message it is flagged `isMissing` and carries the scheme in the
`WWW-Authenticate` header. -/
def unauthorized (message : Option String) (scheme : Option String) : JSVal :=
  let msg : String := match message with
    | some m => if m = "" then "Unauthorized" else m
    | none => "Unauthorized"
  let hasMessage : Bool := match message with
    | some m => decide (m ≠ "")
    | none => false
  let payload : JSVal := JSVal.object
    [("statusCode", num 401), ("error", str "Unauthorized"), ("message", str msg)]
  let output (headers : List (String × JSVal)) : JSVal := JSVal.object
    [("statusCode", num 401), ("payload", payload), ("headers", JSVal.object headers)]
  let base (out : JSVal) : List (String × JSVal) :=
    [("message", str msg), ("data", null), ("isBoom", bool true), ("isServer", bool false),
     ("output", out), ("typeof", unauthorizedFn)]
  match scheme with
  | none => obj (ObjClass.error ErrClass.Error) (Props.ofList (base (output [])))
  | some "" => obj (ObjClass.error ErrClass.Error) (Props.ofList (base (output [])))
  | some sch =>
    if hasMessage then
      obj (ObjClass.error ErrClass.Error) (Props.ofList
        (base (output [("WWW-Authenticate", str (sch ++ " error=\"" ++ msg ++ "\""))])))
    else
      obj (ObjClass.error ErrClass.Error) (Props.ofList
        (("isMissing", bool true) :: base (output [("WWW-Authenticate", str sch)])))

/-- `Boom.isBoom(err)`: an `Error` instance whose `isBoom` property is truthy. -/
def isBoom (err : JSVal) : Bool :=
  err.isError && (err.getProp "isBoom").truthy

end Boom

namespace Bounce

/-- The classes `@hapi/bounce` lists as system errors: the native JavaScript
error classes other than `Error` itself, node's `AssertionError` and the error
thrown by `Hoek.assert`. -/
def systemClass : ErrClass → Bool
  | ErrClass.Error => false
  | _ => true

/-- `Bounce.isSystem(err)`: false for a falsy value and for anything with a
truthy `isBoom`, otherwise whether `err` is an instance of a system class. -/
def isSystem (err : JSVal) : Bool :=
  if !err.truthy then false
  else if (err.getProp "isBoom").truthy then false
  else match err with
    | obj (ObjClass.error c) _ => systemClass c
    | _ => false

end Bounce

namespace Hoek

/-- `Hoek.assert(condition, message)`: throws an assertion error carrying the
message unless the condition holds. -/
def assert (condition : Bool) (message : String) : Except JSVal Unit :=
  if condition then Except.ok () else Except.error (JSVal.mkError ErrClass.HoekError message)

end Hoek

/-- `Object.prototype.hasOwnProperty.call(v, key)`: a `TypeError` on `null` and
`undefined`, otherwise whether `key` is an own property. -/
def hasOwnProperty (v : JSVal) (key : String) : Except JSVal Bool :=
  match v with
  | JSVal.undefined =>
    Except.error (JSVal.mkError ErrClass.TypeError "Cannot convert undefined or null to object")
  | JSVal.null =>
    Except.error (JSVal.mkError ErrClass.TypeError "Cannot convert undefined or null to object")
  | JSVal.obj _ p => Except.ok (p.has key)
  | _ => Except.ok false

/-! ## Requests, settings and the toolkit -/

/-- A request, reduced to its parsed cookie state `request.state`. -/
structure Request where
  state : Props
  deriving DecidableEq

/-- The settings object the scheme closes over (`settings` in
`internals.implementation`). `name`, `keepAlive` and `requestDecoratorName`
have the types the configuration schema gives them; the other fields hold
arbitrary values. -/
structure Settings where
  name : String
  cookie : JSVal
  keepAlive : Bool
  requestDecoratorName : String
  validateFunc : JSVal
  appendNext : JSVal
  appendNextRaw : JSVal
  deriving DecidableEq

/-- The awaited result of calling an asynchronous function: it resolves with a
value, or it throws or rejects with an error. -/
inductive Completion
  | resolve (value : JSVal)
  | reject (err : JSVal)
  deriving DecidableEq

/-- Behaviour of the application functions: what awaiting `f(request, session)`
yields. -/
structure World where
  call : FuncRef → Request → JSVal → Completion

/-- What `authenticate` hands back to hapi: the value of
`h.authenticated({ credentials, artifacts })` or of `h.response(err)`. -/
inductive Outcome
  | authenticated (credentials artifacts : JSVal)
  | response (err : JSVal)
  deriving DecidableEq

namespace Outcome

/-- The credentials an outcome carries, if any. -/
def credentials : Outcome → Option JSVal
  | authenticated c _ => some c
  | response _ => none

/-- The artifacts an outcome carries, if any. -/
def artifacts : Outcome → Option JSVal
  | authenticated _ a => some a
  | response _ => none

/-- The error an outcome carries, if any. -/
def error : Outcome → Option JSVal
  | authenticated _ _ => none
  | response e => some e

/-- An outcome that reports the request as not authenticated. -/
def isUnauthenticated : Outcome → Bool
  | authenticated _ _ => false
  | response _ => true

/-- An outcome that lets the request continue as authenticated. -/
def isAuthenticated : Outcome → Bool
  | authenticated _ _ => true
  | response _ => false

end Outcome

/-- The observable calls `authenticate` makes: the validation callback and the
toolkit methods. `hUnstate` is the toolkit call that clears a cookie. -/
inductive Event
  | validateFunc (request : Request) (session : JSVal)
  | hState (name : String) (value : JSVal)
  | hUnstate (name : String)
  | hAuthenticated (credentials artifacts : JSVal)
  | hResponse (err : JSVal)
  deriving DecidableEq

namespace Event

/-- A call that writes or clears a cookie. -/
def isCookieWrite : Event → Bool
  | hState _ _ => true
  | hUnstate _ => true
  | _ => false

/-- A call of a toolkit method that builds an outcome: `h.authenticated` or
`h.response`. -/
def isOutcome : Event → Bool
  | hAuthenticated _ _ => true
  | hResponse _ => true
  | _ => false

/-- A call of the validation callback. -/
def isValidateCall : Event → Bool
  | validateFunc _ _ => true
  | _ => false

end Event

deriving instance DecidableEq for Except

/-- One run of `authenticate`: the value returned or the error thrown, and the
calls made, in order. -/
structure AuthRun where
  result : Except JSVal Outcome
  trace : List Event
  deriving DecidableEq

namespace AuthRun

/-- The credentials carried by the returned outcome, if an outcome was returned
and carries any. -/
def credentials (r : AuthRun) : Option JSVal :=
  match r.result with
  | Except.ok out => out.credentials
  | Except.error _ => none

/-- The artifacts carried by the returned outcome, if any. -/
def artifacts (r : AuthRun) : Option JSVal :=
  match r.result with
  | Except.ok out => out.artifacts
  | Except.error _ => none

/-- The calls of the validation callback, in order. -/
def validateCalls (r : AuthRun) : List Event :=
  r.trace.filter Event.isValidateCall

/-- The cookie writes and clears, in order. -/
def cookieWrites (r : AuthRun) : List Event :=
  r.trace.filter Event.isCookieWrite

/-- The calls of the toolkit methods that build an outcome (`h.authenticated`,
`h.response`), in order, whether the call returned or threw. -/
def responses (r : AuthRun) : List Event :=
  r.trace.filter Event.isOutcome

end AuthRun

/-! ## `scheme.authenticate` -/

/-- The toolkit method `h.response(result)` of hapi, the host named in
`requirements`: it refuses a promise (`Cannot wrap a promise`) and an `Error`
instance (`Cannot wrap an error`) with an assertion error, and wraps any other
value in a response. -/
def hResponse (result : JSVal) : Except JSVal Outcome :=
  match Hoek.assert
      (!result.truthy || decide (result.typeOf ≠ "object") ||
        decide ((result.getProp "then").typeOf ≠ "function"))
      "Cannot wrap a promise" with
  | Except.error e => Except.error e
  | Except.ok () =>
    match Hoek.assert (!result.isError) "Cannot wrap an error" with
    | Except.error e => Except.error e
    | Except.ok () => Except.ok (Outcome.response result)

/-- The local `unauthenticated = (err) => h.response(err)` (lines 127-129): the
value returned, or the error thrown, by the toolkit call, and the call made. A
second argument passed by a caller is not received by the function. -/
def unauthenticated (err : JSVal) (_data : JSVal) : Except JSVal Outcome × List Event :=
  (hResponse err, [Event.hResponse err])

/-- `await settings.validateFunc(request, session)`: calling a value that is not
a function throws a `TypeError`. -/
def callValidateFunc (w : World) (settings : Settings) (request : Request) (session : JSVal) :
    Except JSVal JSVal × List Event :=
  match settings.validateFunc with
  | JSVal.func f =>
    match w.call f request session with
    | Completion.resolve v => (Except.ok v, [Event.validateFunc request session])
    | Completion.reject e => (Except.error e, [Event.validateFunc request session])
  | _ => (Except.error (JSVal.mkError ErrClass.TypeError "settings.validateFunc is not a function"), [])

/-- The mutable state of the `validate` closure that the `catch` block can see:
the variable `credentials` and the calls made so far. -/
structure TryState where
  credentials : JSVal
  trace : List Event
  deriving DecidableEq

/-- The `try` block of `validate` (lines 96-113), entered with
`credentials = session`. -/
def tryBlock (w : World) (settings : Settings) (request : Request) (session : JSVal) :
    Except JSVal Outcome × TryState :=
  let credentials := session
  match callValidateFunc w settings request session with
  | (Except.error e, tr) => (Except.error e, ⟨credentials, tr⟩)
  | (Except.ok result, tr) =>
    match Hoek.assert (decide (result.typeOf = "object")) "Invalid return from validateFunc" with
    | Except.error e => (Except.error e, ⟨credentials, tr⟩)
    | Except.ok () =>
      match hasOwnProperty result "valid" with
      | Except.error e => (Except.error e, ⟨credentials, tr⟩)
      | Except.ok own =>
        match Hoek.assert own "validateFunc must have valid property in return" with
        | Except.error e => (Except.error e, ⟨credentials, tr⟩)
        | Except.ok () =>
          if !(result.getProp "valid").truthy then
            (Except.error (Boom.unauthorized none (some "cookie")), ⟨credentials, tr⟩)
          else
            let credentials := JSVal.or (result.getProp "credentials") credentials
            let tr := if settings.keepAlive then tr ++ [Event.hState settings.name session] else tr
            (Except.ok (Outcome.authenticated credentials session),
              ⟨credentials, tr ++ [Event.hAuthenticated credentials session]⟩)

/-- The `catch` block of `validate` (lines 114-124). -/
def catchBlock (err : JSVal) (st : TryState) (session : JSVal) : AuthRun :=
  if Bounce.isSystem err then
    ⟨Except.error err, st.trace⟩
  else
    let unauthorized : JSVal :=
      if Boom.isBoom err && decide (err.getProp "typeof" = Boom.unauthorizedFn) then err else JSVal.null
    let unauthorized : JSVal :=
      if !unauthorized.truthy then
        (Boom.unauthorized (some "Invalid cookie") none).setProp "data" err
      else unauthorized
    let r := unauthenticated unauthorized
      (JSVal.object [("credentials", st.credentials), ("artifacts", session)])
    ⟨r.1, st.trace ++ r.2⟩

/-- The operation `scheme.authenticate(request, h)` (lines 83-132). -/
def authenticate (w : World) (settings : Settings) (request : Request) : AuthRun :=
  let session := request.state.get settings.name
  if !session.truthy then
    let r := unauthenticated (Boom.unauthorized none (some "cookie")) JSVal.undefined
    ⟨r.1, r.2⟩
  else
    match tryBlock w settings request session with
    | (Except.ok out, st) => ⟨Except.ok out, st.trace⟩
    | (Except.error err, st) => catchBlock err st session

/-! ## Configuration schema (`internals.schema`) -/

/-- The conversions `@hapi/validate` applies to string values before checking
their type. They are left uninterpreted: `objectFromString s` is the object a
string parses to when the object type accepts it, `numberFromString s` the safe
number a numeric string stands for, `booleanFromString s` the boolean a string
such as `"true"` stands for. -/
structure Coercions where
  objectFromString : String → Option JSVal
  numberFromString : String → Option Rat
  booleanFromString : String → Option Bool

/-- The options object after `Validate.attempt(options, internals.schema)`:
defaults applied, every key of the declared type. `name` is the validated
`cookie.name`, which the property list `cookie` also holds. -/
structure Validated where
  cookieClass : ObjClass
  cookie : Props
  name : String
  keepAlive : Bool
  requestDecoratorName : String
  validateFunc : JSVal
  deriving DecidableEq

namespace Validate

/-- The error `Validate.attempt` throws on a value that breaks the schema. -/
def validationError (msg : String) : JSVal :=
  JSVal.mkError ErrClass.Error msg

/-- The object type: a string is first converted, then the value must be a
non-null object that is neither an array nor a function. -/
def asObject (co : Coercions) (v : JSVal) : Option (ObjClass × Props) :=
  let v := match v with
    | JSVal.str s => (co.objectFromString s).getD v
    | _ => v
  match v with
  | JSVal.obj c p => if c = ObjClass.array then none else some (c, p)
  | _ => none

/-- The rule `Validate.string().default(dflt)`: the default when the key is
undefined, otherwise a non-empty string. -/
def stringKey (label : String) (dflt : String) (v : JSVal) : Except JSVal String :=
  match v with
  | JSVal.undefined => Except.ok dflt
  | JSVal.str s =>
    if s = "" then Except.error (validationError (label ++ " is not allowed to be empty"))
    else Except.ok s
  | _ => Except.error (validationError (label ++ " must be a string"))

/-- The rule `Validate.valid(true).default(true)`. -/
def onlyTrue (label : String) (v : JSVal) : Except JSVal Bool :=
  match v with
  | JSVal.undefined => Except.ok true
  | JSVal.bool true => Except.ok true
  | _ => Except.error (validationError (label ++ " must be [true]"))

/-- The rule `Validate.func()`: the key is optional, and a value given for it
must be a function. -/
def funcKey (label : String) (v : JSVal) : Except JSVal JSVal :=
  match v with
  | JSVal.undefined => Except.ok JSVal.undefined
  | JSVal.func f => Except.ok (JSVal.func f)
  | _ => Except.error (validationError (label ++ " must be of type function"))

/-- The rule for `cookie` (lines 26-31): an object, empty when undefined,
whose `name` is a string defaulting to `sid`, whose `ignoreErrors` is `true`,
and whose other keys are kept as they are. -/
def cookieKey (co : Coercions) (v : JSVal) : Except JSVal (ObjClass × Props × String) :=
  let v := match v with
    | JSVal.undefined => JSVal.object []
    | _ => v
  match asObject co v with
  | none => Except.error (validationError "cookie must be of type object")
  | some (c, p) =>
    match stringKey "cookie.name" "sid" (p.get "name") with
    | Except.error e => Except.error e
    | Except.ok name =>
      match onlyTrue "cookie.ignoreErrors" (p.get "ignoreErrors") with
      | Except.error e => Except.error e
      | Except.ok ignoreErrors =>
        Except.ok (c, (p.set "name" (JSVal.str name)).set "ignoreErrors" (JSVal.bool ignoreErrors), name)

/-- Whether a number lies within the safe integer range, outside of which the
number type rejects it. -/
def safeNumber (q : Rat) : Bool :=
  decide (-9007199254740991 ≤ q) && decide (q ≤ 9007199254740991)

/-- The condition `is: Validate.number().min(1)` evaluated on `cookie.ttl`. The
condition schema is not marked required, so an undefined `cookie.ttl` satisfies
it; a string is converted to a number first. -/
def ttlMatches (co : Coercions) (ttl : JSVal) : Bool :=
  match ttl with
  | JSVal.undefined => true
  | JSVal.num q => safeNumber q && decide (1 ≤ q)
  | JSVal.str s =>
    match co.numberFromString s with
    | some q => safeNumber q && decide (1 ≤ q)
    | none => false
  | _ => false

/-- The rule for `keepAlive` (lines 33-35): a boolean defaulting to `false`
when `cookie.ttl` satisfies the condition, and forbidden otherwise. -/
def keepAliveKey (co : Coercions) (ttl : JSVal) (v : JSVal) : Except JSVal Bool :=
  let v := match v with
    | JSVal.str s =>
      match co.booleanFromString s with
      | some b => JSVal.bool b
      | none => v
    | _ => v
  if ttlMatches co ttl then
    match v with
    | JSVal.undefined => Except.ok false
    | JSVal.bool b => Except.ok b
    | _ => Except.error (validationError "keepAlive must be a boolean")
  else
    match v with
    | JSVal.undefined => Except.ok false
    | _ => Except.error (validationError "keepAlive is not allowed")

/-- The keys `internals.schema` declares; the object admits no other key. -/
def knownKeys : List String :=
  ["cookie", "keepAlive", "requestDecoratorName", "validateFunc"]

/-- `Validate.attempt(options, internals.schema)` (lines 24-40 and 55). -/
def attempt (co : Coercions) (options : JSVal) : Except JSVal Validated :=
  match options with
  | JSVal.undefined => Except.error (validationError "value is required")
  | _ =>
    match asObject co options with
    | none => Except.error (validationError "value must be of type object")
    | some (_, p) =>
      match cookieKey co (p.get "cookie") with
      | Except.error e => Except.error e
      | Except.ok (c, cookie, name) =>
        match keepAliveKey co (cookie.get "ttl") (p.get "keepAlive") with
        | Except.error e => Except.error e
        | Except.ok keepAlive =>
          match stringKey "requestDecoratorName" "cookieAuth" (p.get "requestDecoratorName") with
          | Except.error e => Except.error e
          | Except.ok decoratorName =>
            match funcKey "validateFunc" (p.get "validateFunc") with
            | Except.error e => Except.error e
            | Except.ok validateFunc =>
              match p.keys.find? (fun k => !knownKeys.contains k) with
              | some k => Except.error (validationError (k ++ " is not allowed"))
              | none => Except.ok ⟨c, cookie, name, keepAlive, decoratorName, validateFunc⟩

end Validate

/-! ## The scheme factory (`internals.implementation`) -/

/-- The host server, as far as the factory uses it. `state name options` is
`server.state(name, options)` followed by the read of
`server.states.cookies[name]`: the stored cookie definition, or the error the
server throws. `decorate name` is `server.decorate('request', name, ...)`. -/
structure Server where
  state : String → JSVal → Except JSVal JSVal
  decorate : String → Except JSVal Unit

/-- The calls the factory makes on the server. -/
inductive ServerCall
  | state (name : String) (options : JSVal)
  | decorate (name : String)
  | ext (event : String)
  deriving DecidableEq

/-- One run of the factory: the settings the returned scheme closes over, or
the error thrown, and the calls made on the server. -/
structure FactoryRun where
  result : Except JSVal Settings
  calls : List ServerCall
  deriving DecidableEq

/-- Lines 62-69: the normalisation of `settings.appendNext`. -/
def normalizeAppendNext (settings : Settings) : Except JSVal Settings :=
  let settings : Settings :=
    if settings.appendNext.typeOf = "boolean" then
      { settings with appendNext := JSVal.str (if settings.appendNext.truthy then "next" else "") }
    else settings
  if settings.appendNext.typeOf = "object" then
    match settings.appendNext with
    | JSVal.obj _ p =>
      Except.ok { settings with
        appendNextRaw := p.get "raw"
        appendNext := JSVal.or (p.get "name") (JSVal.str "next") }
    | _ => Except.error (JSVal.mkError ErrClass.TypeError "Cannot read properties of null")
  else Except.ok settings

/-- The factory `internals.implementation(server, options)` (lines 53-136). The
validated object has no `appendNext` key, the schema admitting none, so
`settings.appendNext` starts out undefined. -/
def implementation (co : Coercions) (server : Server) (options : JSVal) : FactoryRun :=
  match Validate.attempt co options with
  | Except.error e => ⟨Except.error e, []⟩
  | Except.ok v =>
    let name := v.name
    let cookie := JSVal.obj v.cookieClass (v.cookie.erase "name")
    match server.state name cookie with
    | Except.error e => ⟨Except.error e, [ServerCall.state name cookie]⟩
    | Except.ok definition =>
      let settings : Settings :=
        ⟨name, definition, v.keepAlive, v.requestDecoratorName, v.validateFunc,
          JSVal.undefined, JSVal.undefined⟩
      match normalizeAppendNext settings with
      | Except.error e => ⟨Except.error e, [ServerCall.state name cookie]⟩
      | Except.ok settings =>
        match server.decorate settings.requestDecoratorName with
        | Except.error e =>
          ⟨Except.error e,
            [ServerCall.state name cookie, ServerCall.decorate settings.requestDecoratorName]⟩
        | Except.ok () =>
          ⟨Except.ok settings,
            [ServerCall.state name cookie, ServerCall.decorate settings.requestDecoratorName,
              ServerCall.ext "onPreAuth"]⟩

/-! ## The request decoration (`internals.CookieAuth`) -/

/-- The response toolkit `h` hapi passes to an extension point or to
`authenticate`. -/
structure Toolkit where
  id : Nat
  deriving DecidableEq

/-- An instance of `internals.CookieAuth` (lines 43-50): the constructor stores
`request` and `settings`; `h` is the property the `onPreAuth` step adds. -/
structure CookieAuth where
  request : Request
  settings : Settings
  h : Option Toolkit
  deriving DecidableEq

namespace CookieAuth

/-- The methods the class body declares besides its constructor. -/
def methodNames : List String := []

/-- A method call `decorated.method(...args)` made by handler code, reporting
the toolkit calls it would make. The class body declares no method and the own
properties `request`, `settings` and `h` hold no function, so every such call
throws the `TypeError` of calling a value that is not a function. -/
def invoke (_decorated : CookieAuth) (method : String) (_args : List JSVal) :
    Except JSVal (List Event) :=
  Except.error (JSVal.mkError ErrClass.TypeError (method ++ " is not a function"))

end CookieAuth

/-- The decoration `(request) => new internals.CookieAuth(request, settings)`
(line 71). -/
def decoration (settings : Settings) (request : Request) : CookieAuth :=
  ⟨request, settings, none⟩

/-- The `onPreAuth` extension (lines 74-80): stores the toolkit on the
request decoration. -/
def onPreAuth (decorated : CookieAuth) (h : Toolkit) : CookieAuth :=
  { decorated with h := some h }

/-! ## Concrete inputs -/

namespace Examples

/-- Settings of a scheme configured with a validation callback only. -/
def settings : Settings :=
  ⟨"sid", JSVal.object [("ignoreErrors", JSVal.bool true)], false, "cookieAuth",
    JSVal.func (FuncRef.user 0), JSVal.undefined, JSVal.undefined⟩

/-- The same settings with `keepAlive` switched on. -/
def settingsKeepAlive : Settings :=
  { settings with keepAlive := true }

/-- A request carrying the session cookie `sid=abc`. -/
def request : Request :=
  ⟨Props.ofList [("sid", JSVal.str "abc")]⟩

/-- A request carrying no cookie. -/
def requestNoCookie : Request :=
  ⟨Props.nil⟩

/-- A world whose validation callback resolves with `v`. -/
def resolving (v : JSVal) : World :=
  ⟨fun _ _ _ => Completion.resolve v⟩

/-- A world whose validation callback rejects with `e`. -/
def rejecting (e : JSVal) : World :=
  ⟨fun _ _ _ => Completion.reject e⟩

/-- A 401 boom error that `Boom.unauthorized` did not build, such as
`Boom.boomify(new Error('Denied'), { statusCode: 401 })`: it carries no
`typeof` marker. -/
def boomified401 : JSVal :=
  JSVal.obj (ObjClass.error ErrClass.Error) (Props.ofList
    [("message", JSVal.str "Denied"), ("data", JSVal.null), ("isBoom", JSVal.bool true),
     ("isServer", JSVal.bool false),
     ("output", JSVal.object
       [("statusCode", JSVal.num 401),
        ("payload", JSVal.object
          [("statusCode", JSVal.num 401), ("error", JSVal.str "Unauthorized"),
           ("message", JSVal.str "Denied")]),
        ("headers", JSVal.object [])])])

/-- A validator that converts no string. -/
def noCoercions : Coercions :=
  ⟨fun _ => none, fun _ => none, fun _ => none⟩

/-- A server that accepts every cookie definition and decoration and stores
the definition as given. -/
def server : Server :=
  ⟨fun _ options => Except.ok options, fun _ => Except.ok ()⟩

end Examples

end Cookie

namespace Cookie
open JSVal

/-! ## Properties of the property lists -/

theorem Props.get_of_has_false : ∀ (p : Props) (key : String), p.has key = false → p.get key = JSVal.undefined
  | Props.nil, _, _ => rfl
  | Props.cons k v rest, key, h => by
    by_cases hk : k = key
    · simp [Props.has, hk] at h
    · simp only [Props.has, hk, if_false] at h
      simp only [Props.get, hk, if_false]
      exact Props.get_of_has_false rest key h

theorem Props.has_of_get_ne (p : Props) (key : String) (h : p.get key ≠ JSVal.undefined) :
    p.has key = true := by
  cases hh : p.has key
  · exact absurd (Props.get_of_has_false p key hh) h
  · rfl

/-! ## The paths of `authenticate` -/

/-- The toolkit refuses every `Error` instance with an assertion error. -/
theorem hResponse_isError (err : JSVal) (h : err.isError = true) :
    hResponse err = Except.error (JSVal.mkError ErrClass.HoekError "Cannot wrap a promise") ∨
    hResponse err = Except.error (JSVal.mkError ErrClass.HoekError "Cannot wrap an error") := by
  unfold hResponse
  split
  · rename_i e he
    left
    unfold Hoek.assert at he
    split at he
    · cases he
    · simp only [Except.error.injEq] at he
      rw [he]
  · right
    simp [Hoek.assert, h]

theorem hResponse_missing :
    hResponse (Boom.unauthorized none (some "cookie")) =
      Except.error (JSVal.mkError ErrClass.HoekError "Cannot wrap an error") := by
  decide

theorem authenticate_falsy (w : World) (settings : Settings) (request : Request)
    (h : (request.state.get settings.name).truthy = false) :
    authenticate w settings request =
      ⟨Except.error (JSVal.mkError ErrClass.HoekError "Cannot wrap an error"),
       [Event.hResponse (Boom.unauthorized none (some "cookie"))]⟩ := by
  simp [authenticate, h, unauthenticated, hResponse_missing]

theorem authenticate_valid (w : World) (settings : Settings) (request : Request)
    (f : FuncRef) (c : ObjClass) (p : Props)
    (hs : (request.state.get settings.name).truthy = true)
    (hf : settings.validateFunc = JSVal.func f)
    (hc : w.call f request (request.state.get settings.name) = Completion.resolve (JSVal.obj c p))
    (hown : p.has "valid" = true)
    (hv : (p.get "valid").truthy = true) :
    authenticate w settings request =
      ⟨Except.ok (Outcome.authenticated (JSVal.or (p.get "credentials") (request.state.get settings.name))
          (request.state.get settings.name)),
       (if settings.keepAlive then
          [Event.validateFunc request (request.state.get settings.name),
           Event.hState settings.name (request.state.get settings.name)]
        else [Event.validateFunc request (request.state.get settings.name)]) ++
       [Event.hAuthenticated (JSVal.or (p.get "credentials") (request.state.get settings.name))
          (request.state.get settings.name)]⟩ := by
  simp [authenticate, tryBlock, callValidateFunc, hs, hf, hc, Hoek.assert, hasOwnProperty, hown, hv,
    JSVal.typeOf, JSVal.getProp]

theorem authenticate_reject (w : World) (settings : Settings) (request : Request)
    (f : FuncRef) (err : JSVal)
    (hs : (request.state.get settings.name).truthy = true)
    (hf : settings.validateFunc = JSVal.func f)
    (hc : w.call f request (request.state.get settings.name) = Completion.reject err) :
    authenticate w settings request =
      catchBlock err ⟨request.state.get settings.name, [Event.validateFunc request (request.state.get settings.name)]⟩
        (request.state.get settings.name) := by
  simp [authenticate, tryBlock, callValidateFunc, hs, hf, hc]

/-! ## Claims about `authenticate` -/

/-- C1, the code at the failing input: for a request without cookies
`authenticate` hands the missing-credentials error
`Boom.unauthorized(null, 'cookie')` to `h.response`, which refuses an `Error`:
the run throws the toolkit's assertion error and returns no outcome. The
validation callback is not called. -/
theorem authenticate_missing_session_throws :
    Examples.requestNoCookie.state.has Examples.settings.name = false ∧
    (authenticate (Examples.resolving (JSVal.object [("valid", JSVal.bool true)]))
        Examples.settings Examples.requestNoCookie).result =
      Except.error (JSVal.mkError ErrClass.HoekError "Cannot wrap an error") ∧
    (authenticate (Examples.resolving (JSVal.object [("valid", JSVal.bool true)]))
        Examples.settings Examples.requestNoCookie).responses =
      [Event.hResponse (Boom.unauthorized none (some "cookie"))] ∧
    (authenticate (Examples.resolving (JSVal.object [("valid", JSVal.bool true)]))
        Examples.settings Examples.requestNoCookie).validateCalls = [] := by
  decide

/-- C2, as amended: with a session present and a validation result whose `valid`
is `true`, `authenticate` returns Authenticated with artifacts equal to the
session, and with credentials equal to `result.credentials` when that value is
truthy and equal to the session when it is falsy or absent
(`result.credentials || session`). -/
theorem authenticate_valid_credentials (w : World) (settings : Settings) (request : Request)
    (f : FuncRef) (c : ObjClass) (p : Props)
    (hs : (request.state.get settings.name).truthy = true)
    (hf : settings.validateFunc = JSVal.func f)
    (hc : w.call f request (request.state.get settings.name) = Completion.resolve (JSVal.obj c p))
    (hv : p.get "valid" = JSVal.bool true) :
    (authenticate w settings request).result =
      Except.ok (Outcome.authenticated
        (if (p.get "credentials").truthy then p.get "credentials" else request.state.get settings.name)
        (request.state.get settings.name)) := by
  have hown : p.has "valid" = true := Props.has_of_get_ne p "valid" (by rw [hv]; simp)
  rw [authenticate_valid w settings request f c p hs hf hc hown (by rw [hv]; rfl)]
  rfl

/-- The hypotheses of `authenticate_valid_credentials` hold for the session
`abc` and the result `{valid: true, credentials: 7}`. -/
theorem authenticate_valid_credentials_witness :
    (Examples.request.state.get Examples.settings.name).truthy = true ∧
    (authenticate (Examples.resolving (JSVal.object [("valid", JSVal.bool true), ("credentials", JSVal.num 7)]))
        Examples.settings Examples.request).result =
      Except.ok (Outcome.authenticated (JSVal.num 7) (JSVal.str "abc")) :=
  ⟨by decide, authenticate_valid_credentials
    (Examples.resolving (JSVal.object [("valid", JSVal.bool true), ("credentials", JSVal.num 7)]))
    Examples.settings Examples.request (FuncRef.user 0) ObjClass.plain
    (Props.ofList [("valid", JSVal.bool true), ("credentials", JSVal.num 7)])
    (by decide) rfl rfl (by decide)⟩

/-- C2, as stated, fails: with the session `abc` and the result
`{valid: true, credentials: ''}` the credentials are not null or undefined, so
`result.credentials ?? session` would be the empty string, yet `authenticate`
returns the session as credentials. -/
theorem authenticate_falsy_credentials_counterexample :
    (Examples.request.state.get Examples.settings.name = JSVal.str "abc") ∧
    (Examples.resolving (JSVal.object [("valid", JSVal.bool true), ("credentials", JSVal.str "")])).call
        (FuncRef.user 0) Examples.request (JSVal.str "abc") =
      Completion.resolve (JSVal.object [("valid", JSVal.bool true), ("credentials", JSVal.str "")]) ∧
    JSVal.nullish (JSVal.str "") (JSVal.str "abc") = JSVal.str "" ∧
    (authenticate (Examples.resolving (JSVal.object [("valid", JSVal.bool true), ("credentials", JSVal.str "")]))
        Examples.settings Examples.request).result =
      Except.ok (Outcome.authenticated (JSVal.str "abc") (JSVal.str "abc")) ∧
    (authenticate (Examples.resolving (JSVal.object [("valid", JSVal.bool true), ("credentials", JSVal.str "")]))
        Examples.settings Examples.request).result ≠
      Except.ok (Outcome.authenticated (JSVal.str "") (JSVal.str "abc")) := by
  decide

/-- C3, the code at the failing input: with the session `abc` and the result
`{valid: false}`, the only toolkit call is `h.response` with the unauthorized
error: the second argument of `unauthenticated`, which holds credentials and
artifacts, is dropped, and the toolkit refuses the error, so the run throws
and no outcome carries credentials or artifacts. -/
theorem authenticate_invalid_drops_session :
    (authenticate (Examples.resolving (JSVal.object [("valid", JSVal.bool false)]))
        Examples.settings Examples.request).responses =
      [Event.hResponse (Boom.unauthorized none (some "cookie"))] ∧
    (authenticate (Examples.resolving (JSVal.object [("valid", JSVal.bool false)]))
        Examples.settings Examples.request).result =
      Except.error (JSVal.mkError ErrClass.HoekError "Cannot wrap an error") ∧
    (authenticate (Examples.resolving (JSVal.object [("valid", JSVal.bool false)]))
        Examples.settings Examples.request).credentials = none ∧
    (authenticate (Examples.resolving (JSVal.object [("valid", JSVal.bool false)]))
        Examples.settings Examples.request).artifacts = none := by
  decide

/-- C4: with a session present, when the validation callback rejects or throws
an error that `Bounce` classifies as a system error, `authenticate` throws that
same error and builds no outcome, neither `h.response` nor `h.authenticated`. -/
theorem authenticate_system_error (w : World) (settings : Settings) (request : Request)
    (f : FuncRef) (err : JSVal)
    (hs : (request.state.get settings.name).truthy = true)
    (hf : settings.validateFunc = JSVal.func f)
    (hc : w.call f request (request.state.get settings.name) = Completion.reject err)
    (hsys : Bounce.isSystem err = true) :
    (authenticate w settings request).result = Except.error err ∧
      (authenticate w settings request).responses = [] := by
  rw [authenticate_reject w settings request f err hs hf hc]
  simp [catchBlock, hsys, AuthRun.responses, Event.isOutcome]

/-- The hypotheses of `authenticate_system_error` hold for a callback that
rejects with a `TypeError`. -/
theorem authenticate_system_error_witness :
    (Examples.request.state.get Examples.settings.name).truthy = true ∧
    Bounce.isSystem (JSVal.mkError ErrClass.TypeError "x is not a function") = true ∧
    (authenticate (Examples.rejecting (JSVal.mkError ErrClass.TypeError "x is not a function"))
        Examples.settings Examples.request).result =
      Except.error (JSVal.mkError ErrClass.TypeError "x is not a function") ∧
    (authenticate (Examples.rejecting (JSVal.mkError ErrClass.TypeError "x is not a function"))
        Examples.settings Examples.request).responses = [] :=
  ⟨by decide, by decide, authenticate_system_error
    (Examples.rejecting (JSVal.mkError ErrClass.TypeError "x is not a function"))
    Examples.settings Examples.request (FuncRef.user 0) _ (by decide) rfl rfl (by decide)⟩

/-- C5, the code at the failing input: with the session `abc` and a callback
rejecting with a plain `Error`, the only toolkit call is `h.response` with the
`Invalid cookie` unauthorized error whose `data` is the rejected error; the
credentials and artifacts passed as second argument are dropped, and the
toolkit refuses the error, so the run throws and no outcome carries
credentials or artifacts. -/
theorem authenticate_recoverable_drops_session :
    Bounce.isSystem (JSVal.mkError ErrClass.Error "lookup failed") = false ∧
    (authenticate (Examples.rejecting (JSVal.mkError ErrClass.Error "lookup failed"))
        Examples.settings Examples.request).responses =
      [Event.hResponse
        ((Boom.unauthorized (some "Invalid cookie") none).setProp "data"
          (JSVal.mkError ErrClass.Error "lookup failed"))] ∧
    ((Boom.unauthorized (some "Invalid cookie") none).setProp "data"
          (JSVal.mkError ErrClass.Error "lookup failed")).getProp "data" =
      JSVal.mkError ErrClass.Error "lookup failed" ∧
    (authenticate (Examples.rejecting (JSVal.mkError ErrClass.Error "lookup failed"))
        Examples.settings Examples.request).result =
      Except.error (JSVal.mkError ErrClass.HoekError "Cannot wrap an error") ∧
    (authenticate (Examples.rejecting (JSVal.mkError ErrClass.Error "lookup failed"))
        Examples.settings Examples.request).credentials = none ∧
    (authenticate (Examples.rejecting (JSVal.mkError ErrClass.Error "lookup failed"))
        Examples.settings Examples.request).artifacts = none := by
  decide

theorem catchBlock_cookieWrites (err : JSVal) (st : TryState) (session : JSVal) :
    (catchBlock err st session).cookieWrites = st.trace.filter Event.isCookieWrite := by
  unfold catchBlock
  split <;> simp [AuthRun.cookieWrites, unauthenticated, Event.isCookieWrite]

theorem catchBlock_system (err : JSVal) (st : TryState) (session : JSVal)
    (h : Bounce.isSystem err = true) :
    catchBlock err st session = ⟨Except.error err, st.trace⟩ := by
  simp [catchBlock, h]

theorem isSystem_mkError (c : ErrClass) (msg : String) :
    Bounce.isSystem (JSVal.mkError c msg) = Bounce.systemClass c := by
  rfl

/-- C6: with a session present, when the validation callback resolves with a
value that is not an object (a primitive, `null`, `undefined`) or with an object
that has no own `valid` property, `authenticate` throws (an assertion error of
`Hoek.assert`, or the `TypeError` of the own-property test on `null`) and
builds no outcome. -/
theorem authenticate_contract_violation (w : World) (settings : Settings) (request : Request)
    (f : FuncRef) (r : JSVal)
    (hs : (request.state.get settings.name).truthy = true)
    (hf : settings.validateFunc = JSVal.func f)
    (hc : w.call f request (request.state.get settings.name) = Completion.resolve r)
    (hr : ∀ c p, r = JSVal.obj c p → p.has "valid" = false) :
    ((authenticate w settings request).result =
        Except.error (JSVal.mkError ErrClass.HoekError "Invalid return from validateFunc") ∨
      (authenticate w settings request).result =
        Except.error (JSVal.mkError ErrClass.TypeError "Cannot convert undefined or null to object") ∨
      (authenticate w settings request).result =
        Except.error (JSVal.mkError ErrClass.HoekError
          "validateFunc must have valid property in return")) ∧
    (authenticate w settings request).responses = [] := by
  cases r with
  | obj c p =>
    have hp := hr c p rfl
    simp [authenticate, tryBlock, callValidateFunc, hs, hf, hc, Hoek.assert, hasOwnProperty, hp,
      JSVal.typeOf, catchBlock, isSystem_mkError, Bounce.systemClass, AuthRun.responses,
      Event.isOutcome]
  | _ =>
    simp [authenticate, tryBlock, callValidateFunc, hs, hf, hc, Hoek.assert, hasOwnProperty,
      JSVal.typeOf, catchBlock, isSystem_mkError, Bounce.systemClass, AuthRun.responses,
      Event.isOutcome]

/-- C7: with a session present and `keepAlive` on, when the validation callback
resolves `{valid: true}` without credentials, `authenticate` returns
Authenticated with credentials and artifacts both equal to the session, and
the cookie is written exactly once, under the configured name, with the
session as read. -/
theorem authenticate_keep_alive (w : World) (settings : Settings) (request : Request)
    (f : FuncRef) (c : ObjClass) (p : Props)
    (hs : (request.state.get settings.name).truthy = true)
    (hf : settings.validateFunc = JSVal.func f)
    (hk : settings.keepAlive = true)
    (hc : w.call f request (request.state.get settings.name) = Completion.resolve (JSVal.obj c p))
    (hv : p.get "valid" = JSVal.bool true)
    (hcred : p.has "credentials" = false) :
    (authenticate w settings request).result =
        Except.ok (Outcome.authenticated (request.state.get settings.name)
          (request.state.get settings.name)) ∧
      (authenticate w settings request).cookieWrites =
        [Event.hState settings.name (request.state.get settings.name)] := by
  have hown : p.has "valid" = true := Props.has_of_get_ne p "valid" (by rw [hv]; simp)
  rw [authenticate_valid w settings request f c p hs hf hc hown (by rw [hv]; rfl)]
  simp [Props.get_of_has_false p "credentials" hcred, JSVal.or, JSVal.truthy, hk,
    AuthRun.cookieWrites, Event.isCookieWrite]

/-- C8, as amended: `authenticate` writes a cookie if and only if the session is
truthy, `keepAlive` is on, and the validation callback resolved an object with
an own `valid` property whose value is truthy; there is at most one write, it
is `h.state(name, session)`, and the cookie is never cleared. -/
theorem authenticate_cookie_write_iff (w : World) (settings : Settings) (request : Request) :
    ((authenticate w settings request).cookieWrites ≠ [] ↔
      ((request.state.get settings.name).truthy = true ∧ settings.keepAlive = true ∧
        ∃ f c p, settings.validateFunc = JSVal.func f ∧
          w.call f request (request.state.get settings.name) = Completion.resolve (JSVal.obj c p) ∧
          p.has "valid" = true ∧ (p.get "valid").truthy = true)) ∧
    ((authenticate w settings request).cookieWrites = [] ∨
      (authenticate w settings request).cookieWrites =
        [Event.hState settings.name (request.state.get settings.name)]) := by
  cases hs : (request.state.get settings.name).truthy
  · rw [authenticate_falsy w settings request hs]
    simp [AuthRun.cookieWrites, Event.isCookieWrite]
  · cases hf : settings.validateFunc with
    | func f =>
      cases hc : w.call f request (request.state.get settings.name) with
      | reject err =>
        rw [authenticate_reject w settings request f err hs hf hc, catchBlock_cookieWrites]
        simp [Event.isCookieWrite, hc]
      | resolve r =>
        cases r with
        | obj c p =>
          cases hown : p.has "valid"
          · simp [authenticate, tryBlock, callValidateFunc, hs, hf, hc, Hoek.assert, hasOwnProperty,
              hown, JSVal.typeOf, catchBlock, isSystem_mkError, Bounce.systemClass,
              AuthRun.cookieWrites, Event.isCookieWrite]
          · cases hv : (p.get "valid").truthy
            · have hrun : authenticate w settings request =
                  catchBlock (Boom.unauthorized none (some "cookie"))
                    ⟨request.state.get settings.name,
                      [Event.validateFunc request (request.state.get settings.name)]⟩
                    (request.state.get settings.name) := by
                simp [authenticate, tryBlock, callValidateFunc, hs, hf, hc, Hoek.assert,
                  hasOwnProperty, hown, hv, JSVal.typeOf, JSVal.getProp]
              rw [hrun, catchBlock_cookieWrites]
              simp [Event.isCookieWrite, hc, hv]
            · rw [authenticate_valid w settings request f c p hs hf hc hown hv]
              cases hk : settings.keepAlive
              · simp [AuthRun.cookieWrites, Event.isCookieWrite]
              · simp [AuthRun.cookieWrites, Event.isCookieWrite, hc]
                exact ⟨c, p, ⟨rfl, rfl⟩, hown, hv⟩
        | _ =>
          simp [authenticate, tryBlock, callValidateFunc, hs, hf, hc, Hoek.assert, hasOwnProperty,
            JSVal.typeOf, catchBlock, isSystem_mkError, Bounce.systemClass, AuthRun.cookieWrites,
            Event.isCookieWrite]
    | _ =>
      simp [authenticate, tryBlock, callValidateFunc, hs, hf, catchBlock, isSystem_mkError,
        Bounce.systemClass, AuthRun.cookieWrites]

/-- The hypotheses of `authenticate_contract_violation` hold for a callback
resolving the empty object. -/
theorem authenticate_contract_violation_witness :
    (Examples.request.state.get Examples.settings.name).truthy = true ∧
    ((authenticate (Examples.resolving (JSVal.object [])) Examples.settings Examples.request).result =
        Except.error (JSVal.mkError ErrClass.HoekError "Invalid return from validateFunc") ∨
      (authenticate (Examples.resolving (JSVal.object [])) Examples.settings Examples.request).result =
        Except.error (JSVal.mkError ErrClass.TypeError "Cannot convert undefined or null to object") ∨
      (authenticate (Examples.resolving (JSVal.object [])) Examples.settings Examples.request).result =
        Except.error (JSVal.mkError ErrClass.HoekError
          "validateFunc must have valid property in return")) ∧
    (authenticate (Examples.resolving (JSVal.object [])) Examples.settings Examples.request).responses = [] :=
  ⟨by decide, authenticate_contract_violation (Examples.resolving (JSVal.object []))
    Examples.settings Examples.request (FuncRef.user 0) (JSVal.object []) (by decide) rfl rfl
    (by intro c p h; cases h; rfl)⟩

/-- The hypotheses of `authenticate_keep_alive` hold for the session `abc` and
the result `{valid: true}`. -/
theorem authenticate_keep_alive_witness :
    (Examples.request.state.get Examples.settingsKeepAlive.name).truthy = true ∧
    Examples.settingsKeepAlive.keepAlive = true ∧
    (authenticate (Examples.resolving (JSVal.object [("valid", JSVal.bool true)]))
        Examples.settingsKeepAlive Examples.request).result =
      Except.ok (Outcome.authenticated (JSVal.str "abc") (JSVal.str "abc")) ∧
    (authenticate (Examples.resolving (JSVal.object [("valid", JSVal.bool true)]))
        Examples.settingsKeepAlive Examples.request).cookieWrites =
      [Event.hState "sid" (JSVal.str "abc")] :=
  ⟨by decide, rfl, authenticate_keep_alive
    (Examples.resolving (JSVal.object [("valid", JSVal.bool true)]))
    Examples.settingsKeepAlive Examples.request (FuncRef.user 0) ObjClass.plain
    (Props.ofList [("valid", JSVal.bool true)]) (by decide) rfl rfl rfl (by decide) (by decide)⟩

/-- C8, as stated, fails: with `keepAlive` on and the result `{valid: 1}`, whose
`valid` is not the boolean `true`, the cookie is written all the same. -/
theorem authenticate_cookie_write_counterexample :
    (JSVal.object [("valid", JSVal.num 1)]).getProp "valid" ≠ JSVal.bool true ∧
    (authenticate (Examples.resolving (JSVal.object [("valid", JSVal.num 1)]))
        Examples.settingsKeepAlive Examples.request).cookieWrites =
      [Event.hState "sid" (JSVal.str "abc")] := by
  decide

/-- In the `catch` block an unauthorized boom error that is not a system error
is handed to `h.response` as it is. -/
theorem catchBlock_passthrough (err : JSVal) (st : TryState) (session : JSVal)
    (hsys : Bounce.isSystem err = false)
    (hun : (Boom.isBoom err && decide (err.getProp "typeof" = Boom.unauthorizedFn)) = true) :
    catchBlock err st session = ⟨hResponse err, st.trace ++ [Event.hResponse err]⟩ := by
  have ht : err.truthy = true := by
    simp only [Boom.isBoom, Bool.and_eq_true] at hun
    cases err <;> simp_all [JSVal.isError, JSVal.truthy]
  simp [catchBlock, hsys, hun, ht, unauthenticated]

/-- In the `catch` block any other error that is not a system error is wrapped
as the `data` of a new `Invalid cookie` error, which is handed to
`h.response`. -/
theorem catchBlock_wrap (err : JSVal) (st : TryState) (session : JSVal)
    (hsys : Bounce.isSystem err = false)
    (hun : (Boom.isBoom err && decide (err.getProp "typeof" = Boom.unauthorizedFn)) = false) :
    catchBlock err st session =
      ⟨hResponse ((Boom.unauthorized (some "Invalid cookie") none).setProp "data" err),
        st.trace ++
          [Event.hResponse ((Boom.unauthorized (some "Invalid cookie") none).setProp "data" err)]⟩ := by
  simp only [catchBlock, hsys, hun]
  simp [unauthenticated, JSVal.truthy]

/-- With a session present, a rejection that is neither a system error nor an
unauthorized boom error is wrapped: `h.response` is called with the
`Invalid cookie` error carrying the rejected error as `data`, and the run ends
with what that call gives. -/
theorem authenticate_recoverable (w : World) (settings : Settings) (request : Request)
    (f : FuncRef) (err : JSVal)
    (hs : (request.state.get settings.name).truthy = true)
    (hf : settings.validateFunc = JSVal.func f)
    (hc : w.call f request (request.state.get settings.name) = Completion.reject err)
    (hsys : Bounce.isSystem err = false)
    (hun : (Boom.isBoom err && decide (err.getProp "typeof" = Boom.unauthorizedFn)) = false) :
    authenticate w settings request =
      ⟨hResponse ((Boom.unauthorized (some "Invalid cookie") none).setProp "data" err),
        [Event.validateFunc request (request.state.get settings.name),
          Event.hResponse ((Boom.unauthorized (some "Invalid cookie") none).setProp "data" err)]⟩ := by
  rw [authenticate_reject w settings request f err hs hf hc, catchBlock_wrap err _ _ hsys hun]
  simp

/-! ## Properties of the configuration schema -/

theorem Props.get_erase_ne : ∀ (p : Props) (k key : String), k ≠ key →
    (p.erase k).get key = p.get key
  | Props.nil, _, _, _ => rfl
  | Props.cons k0 v rest, k, key, h => by
    by_cases hk : k0 = k
    · simp only [Props.erase, hk, if_true]
      rw [Props.get_erase_ne rest k key h]
      simp [Props.get, h]
    · simp only [Props.erase, hk, if_false, Props.get]
      rw [Props.get_erase_ne rest k key h]

theorem Props.get_set_ne (p : Props) (k key : String) (v : JSVal) (h : k ≠ key) :
    (p.set k v).get key = p.get key := by
  simp [Props.set, Props.get, h, Props.get_erase_ne p k key h]

theorem asObject_undefined (co : Coercions) : Validate.asObject co JSVal.undefined = none := rfl

theorem implementation_of_attempt_error (co : Coercions) (server : Server) (options e : JSVal)
    (h : Validate.attempt co options = Except.error e) :
    implementation co server options = ⟨Except.error e, []⟩ := by
  simp [implementation, h]

theorem cookieKey_ttl (co : Coercions) (v : JSVal) (cc : ObjClass) (cp : Props)
    (c : ObjClass) (cookie : Props) (name : String)
    (hv : v = JSVal.obj cc cp)
    (h : Validate.cookieKey co v = Except.ok (c, cookie, name)) :
    cookie.get "ttl" = cp.get "ttl" := by
  subst hv
  simp only [Validate.cookieKey, Validate.asObject] at h
  split at h
  · simp at h
  · rename_i c0 p0 hobj
    split at hobj
    · simp at hobj
    · simp at hobj
      obtain ⟨_, rfl⟩ := hobj
      split at h
      · simp at h
      · split at h
        · simp at h
        · simp at h
          obtain ⟨_, rfl, _⟩ := h
          rw [Props.get_set_ne _ _ _ _ (by decide), Props.get_set_ne _ _ _ _ (by decide)]

theorem keepAliveKey_forbidden (co : Coercions) (ttl : JSVal)
    (h : Validate.ttlMatches co ttl = false) :
    Validate.keepAliveKey co ttl (JSVal.bool true) =
      Except.error (Validate.validationError "keepAlive is not allowed") := by
  unfold Validate.keepAliveKey
  simp [h]

/-- A configuration with `keepAlive: true` whose `cookie.ttl` is present and
fails the condition `number().min(1)` is rejected: the factory throws and makes
no call on the server. -/
theorem implementation_rejects_keep_alive (co : Coercions) (server : Server) (options : JSVal)
    (c cc : ObjClass) (p cp : Props)
    (ho : Validate.asObject co options = some (c, p))
    (hcookie : p.get "cookie" = JSVal.obj cc cp)
    (httl : Validate.ttlMatches co (cp.get "ttl") = false)
    (hk : p.get "keepAlive" = JSVal.bool true) :
    ∃ e, implementation co server options = ⟨Except.error e, []⟩ := by
  have hne : options ≠ JSVal.undefined := by
    intro hu; rw [hu, asObject_undefined] at ho; simp at ho
  cases hck : Validate.cookieKey co (p.get "cookie") with
  | error e =>
    refine ⟨e, implementation_of_attempt_error co server options e ?_⟩
    unfold Validate.attempt
    split
    · exact absurd rfl hne
    · simp [ho, hck]
  | ok r =>
    obtain ⟨c1, cookie, name⟩ := r
    have ht := cookieKey_ttl co _ cc cp c1 cookie name hcookie hck
    refine ⟨Validate.validationError "keepAlive is not allowed",
      implementation_of_attempt_error co server options _ ?_⟩
    unfold Validate.attempt
    split
    · exact absurd rfl hne
    · simp [ho, hck, ht, hk, keepAliveKey_forbidden co _ httl]

/-- A number below 1 fails the condition on `cookie.ttl`. -/
theorem ttlMatches_low (co : Coercions) (q : Rat) (h : q < 1) :
    Validate.ttlMatches co (JSVal.num q) = false := by
  simp [Validate.ttlMatches, h]

/-- A configuration that supplies a value for `validateFunc` that is not a
function is rejected: the factory throws and makes no call on the server. -/
theorem implementation_rejects_non_function (co : Coercions) (server : Server) (options : JSVal)
    (c : ObjClass) (p : Props)
    (ho : Validate.asObject co options = some (c, p))
    (hdef : p.get "validateFunc" ≠ JSVal.undefined)
    (hfun : ∀ f, p.get "validateFunc" ≠ JSVal.func f) :
    ∃ e, implementation co server options = ⟨Except.error e, []⟩ := by
  have hne : options ≠ JSVal.undefined := by
    intro hu; rw [hu, asObject_undefined] at ho; simp at ho
  have hfk : Validate.funcKey "validateFunc" (p.get "validateFunc") =
      Except.error (Validate.validationError "validateFunc must be of type function") := by
    cases hv : p.get "validateFunc" with
    | undefined => exact absurd hv hdef
    | func f => exact absurd hv (hfun f)
    | _ => rfl
  cases hatt : Validate.attempt co options with
  | error e => exact ⟨e, implementation_of_attempt_error co server options e hatt⟩
  | ok v =>
    exfalso
    unfold Validate.attempt at hatt
    split at hatt
    · simp at hatt
    · simp only [ho] at hatt
      split at hatt
      · simp at hatt
      · split at hatt
        · simp at hatt
        · split at hatt
          · simp at hatt
          · rw [hfk] at hatt
            simp at hatt

/-! ## Claims about the scheme factory -/

/-- C9, the code at the failing input: the configuration
`{validateFunc: f, keepAlive: true}`, which sets no `cookie.ttl`, passes
validation; the factory returns a scheme whose settings have `keepAlive` on
and registers the cookie definition. -/
theorem implementation_keep_alive_without_ttl :
    (implementation Examples.noCoercions Examples.server
        (JSVal.object [("validateFunc", JSVal.func (FuncRef.user 0)),
          ("keepAlive", JSVal.bool true)])).result =
      Except.ok ⟨"sid", JSVal.object [("ignoreErrors", JSVal.bool true)], true, "cookieAuth",
        JSVal.func (FuncRef.user 0), JSVal.undefined, JSVal.undefined⟩ ∧
    (implementation Examples.noCoercions Examples.server
        (JSVal.object [("validateFunc", JSVal.func (FuncRef.user 0)),
          ("keepAlive", JSVal.bool true)])).calls =
      [ServerCall.state "sid" (JSVal.object [("ignoreErrors", JSVal.bool true)]),
        ServerCall.decorate "cookieAuth", ServerCall.ext "onPreAuth"] := by
  decide

/-- C10, the code at the failing input: the empty configuration, which omits
`validateFunc`, passes validation and the factory returns a scheme; the
failure comes at request time, when `authenticate` on a request with a session
throws the `TypeError` of calling `undefined`. -/
theorem implementation_without_validateFunc :
    (implementation Examples.noCoercions Examples.server (JSVal.object [])).result =
      Except.ok ⟨"sid", JSVal.object [("ignoreErrors", JSVal.bool true)], false, "cookieAuth",
        JSVal.undefined, JSVal.undefined, JSVal.undefined⟩ ∧
    (authenticate (Examples.resolving (JSVal.object [("valid", JSVal.bool true)]))
        ⟨"sid", JSVal.object [("ignoreErrors", JSVal.bool true)], false, "cookieAuth",
          JSVal.undefined, JSVal.undefined, JSVal.undefined⟩ Examples.request).result =
      Except.error (JSVal.mkError ErrClass.TypeError "settings.validateFunc is not a function") := by
  decide

/-! ## Inversion of the `try` block -/

theorem tryBlock_ok (w : World) (settings : Settings) (request : Request) (session : JSVal)
    (out : Outcome) (st : TryState)
    (h : tryBlock w settings request session = (Except.ok out, st)) :
    ∃ f c p, settings.validateFunc = JSVal.func f ∧
      w.call f request session = Completion.resolve (JSVal.obj c p) ∧
      p.has "valid" = true ∧ (p.get "valid").truthy = true ∧
      out = Outcome.authenticated (JSVal.or (p.get "credentials") session) session ∧
      st.trace = (if settings.keepAlive then
          [Event.validateFunc request session, Event.hState settings.name session]
        else [Event.validateFunc request session]) ++
        [Event.hAuthenticated (JSVal.or (p.get "credentials") session) session] := by
  cases hf : settings.validateFunc with
  | func f =>
    cases hc : w.call f request session with
    | reject err => simp [tryBlock, callValidateFunc, hf, hc] at h
    | resolve r =>
      cases r with
      | obj c p =>
        cases hown : p.has "valid"
        · simp [tryBlock, callValidateFunc, hf, hc, Hoek.assert, hasOwnProperty, hown,
            JSVal.typeOf] at h
        · cases hv : (p.get "valid").truthy
          · simp [tryBlock, callValidateFunc, hf, hc, Hoek.assert, hasOwnProperty, hown, hv,
              JSVal.typeOf, JSVal.getProp] at h
          · simp [tryBlock, callValidateFunc, hf, hc, Hoek.assert, hasOwnProperty, hown, hv,
              JSVal.typeOf, JSVal.getProp] at h
            obtain ⟨h1, h2⟩ := h
            refine ⟨f, c, p, rfl, hc, hown, hv, h1.symm, ?_⟩
            rw [← h2]
      | _ =>
        simp [tryBlock, callValidateFunc, hf, hc, Hoek.assert, hasOwnProperty, JSVal.typeOf] at h
  | _ => simp [tryBlock, callValidateFunc, hf] at h

theorem tryBlock_error (w : World) (settings : Settings) (request : Request) (session : JSVal)
    (e : JSVal) (st : TryState)
    (h : tryBlock w settings request session = (Except.error e, st)) :
    (st.trace = [] ∧ ∀ f, settings.validateFunc ≠ JSVal.func f) ∨
    (st.trace = [Event.validateFunc request session] ∧ ∃ f, settings.validateFunc = JSVal.func f) := by
  cases hf : settings.validateFunc with
  | func f =>
    right
    refine ⟨?_, f, rfl⟩
    cases hc : w.call f request session with
    | reject err =>
      simp [tryBlock, callValidateFunc, hf, hc] at h
      rw [← h.2]
    | resolve r =>
      cases r with
      | obj c p =>
        cases hown : p.has "valid"
        · simp [tryBlock, callValidateFunc, hf, hc, Hoek.assert, hasOwnProperty, hown,
            JSVal.typeOf] at h
          rw [← h.2]
        · cases hv : (p.get "valid").truthy
          · simp [tryBlock, callValidateFunc, hf, hc, Hoek.assert, hasOwnProperty, hown, hv,
              JSVal.typeOf, JSVal.getProp] at h
            rw [← h.2]
          · simp [tryBlock, callValidateFunc, hf, hc, Hoek.assert, hasOwnProperty, hown, hv,
              JSVal.typeOf, JSVal.getProp] at h
      | _ =>
        simp [tryBlock, callValidateFunc, hf, hc, Hoek.assert, hasOwnProperty, JSVal.typeOf] at h
        rw [← h.2]
  | _ =>
    left
    simp [tryBlock, callValidateFunc, hf] at h
    refine ⟨by rw [← h.2], ?_⟩
    intro f hh
    cases hh


theorem authenticate_truthy (w : World) (settings : Settings) (request : Request)
    (hs : (request.state.get settings.name).truthy = true) :
    authenticate w settings request =
      match tryBlock w settings request (request.state.get settings.name) with
      | (Except.ok out, st) => ⟨Except.ok out, st.trace⟩
      | (Except.error err, st) => catchBlock err st (request.state.get settings.name) := by
  simp [authenticate, hs]

theorem catchBlock_validateCalls (err : JSVal) (st : TryState) (session : JSVal) :
    (catchBlock err st session).validateCalls = st.trace.filter Event.isValidateCall := by
  unfold catchBlock
  split <;> simp [AuthRun.validateCalls, unauthenticated, Event.isValidateCall]

theorem catchBlock_result (err : JSVal) (st : TryState) (session : JSVal) :
    (Bounce.isSystem err = true ∧ catchBlock err st session = ⟨Except.error err, st.trace⟩) ∨
    (Bounce.isSystem err = false ∧ ∃ u e, u.isError = true ∧
      (e = JSVal.mkError ErrClass.HoekError "Cannot wrap a promise" ∨
        e = JSVal.mkError ErrClass.HoekError "Cannot wrap an error") ∧
      catchBlock err st session = ⟨Except.error e, st.trace ++ [Event.hResponse u]⟩) := by
  cases hsys : Bounce.isSystem err
  · right
    refine ⟨rfl, ?_⟩
    cases hun : (Boom.isBoom err && decide (err.getProp "typeof" = Boom.unauthorizedFn))
    · have hw : ((Boom.unauthorized (some "Invalid cookie") none).setProp "data" err).isError
          = true := rfl
      rw [catchBlock_wrap err st session hsys hun]
      rcases hResponse_isError _ hw with h | h
      · exact ⟨_, _, hw, Or.inl rfl, by rw [h]⟩
      · exact ⟨_, _, hw, Or.inr rfl, by rw [h]⟩
    · have he : err.isError = true := by
        simp only [Boom.isBoom, Bool.and_eq_true] at hun
        exact hun.1.1
      rw [catchBlock_passthrough err st session hsys hun]
      rcases hResponse_isError _ he with h | h
      · exact ⟨_, _, he, Or.inl rfl, by rw [h]⟩
      · exact ⟨_, _, he, Or.inr rfl, by rw [h]⟩
  · left
    exact ⟨rfl, by simp [catchBlock, hsys]⟩

theorem Props.get_erase_self : ∀ (p : Props) (key : String), (p.erase key).get key = JSVal.undefined
  | Props.nil, _ => rfl
  | Props.cons k v rest, key => by
    by_cases hk : k = key
    · simp only [Props.erase, hk, if_true]
      exact Props.get_erase_self rest key
    · simp only [Props.erase, hk, if_false, Props.get]
      exact Props.get_erase_self rest key

theorem or_truthy (a b : JSVal) (hb : b.truthy = true) : (JSVal.or a b).truthy = true := by
  unfold JSVal.or
  split
  · assumption
  · exact hb

/-- C17: one run of `authenticate` calls the validation callback at most once,
whatever the callback does; when the session is present (truthy) and
`validateFunc` is a function it is called exactly once, with the request and
the session. -/
theorem authenticate_validate_once (w : World) (settings : Settings) (request : Request) :
    (authenticate w settings request).validateCalls.length ≤ 1 ∧
    ((request.state.get settings.name).truthy = true →
      (∃ f, settings.validateFunc = JSVal.func f) →
      (authenticate w settings request).validateCalls =
        [Event.validateFunc request (request.state.get settings.name)]) := by
  cases hs : (request.state.get settings.name).truthy
  · rw [authenticate_falsy w settings request hs]
    simp [AuthRun.validateCalls, Event.isValidateCall]
  · rw [authenticate_truthy w settings request hs]
    cases ht : tryBlock w settings request (request.state.get settings.name) with
    | mk res st =>
      cases res with
      | ok out =>
        obtain ⟨f, c, p, hf, _, _, _, _, htr⟩ := tryBlock_ok w settings request _ out st ht
        simp only [AuthRun.validateCalls, htr]
        cases settings.keepAlive <;> simp [Event.isValidateCall]
      | error e =>
        simp only [catchBlock_validateCalls]
        rcases tryBlock_error w settings request _ e st ht with ⟨htr, hnf⟩ | ⟨htr, _⟩
        · rw [htr]
          refine ⟨by simp, fun _ hex => ?_⟩
          obtain ⟨f, hf⟩ := hex
          exact absurd hf (hnf f)
        · rw [htr]
          simp [Event.isValidateCall]

/-- When `authenticate` returns: exactly when the session is truthy and the
callback resolved an object with an own, truthy `valid`; the outcome is then
Authenticated with credentials `result.credentials || session` and the
session as artifacts. On every other path the run throws. -/
theorem authenticate_returns_iff (w : World) (settings : Settings) (request : Request)
    (out : Outcome) :
    (authenticate w settings request).result = Except.ok out ↔
      ((request.state.get settings.name).truthy = true ∧
        ∃ f c p, settings.validateFunc = JSVal.func f ∧
          w.call f request (request.state.get settings.name) =
            Completion.resolve (JSVal.obj c p) ∧
          p.has "valid" = true ∧ (p.get "valid").truthy = true ∧
          out = Outcome.authenticated
            (JSVal.or (p.get "credentials") (request.state.get settings.name))
            (request.state.get settings.name)) := by
  constructor
  · intro h
    cases hs : (request.state.get settings.name).truthy
    · rw [authenticate_falsy w settings request hs] at h
      cases h
    · rw [authenticate_truthy w settings request hs] at h
      cases ht : tryBlock w settings request (request.state.get settings.name) with
      | mk res st =>
        rw [ht] at h
        cases res with
        | ok out2 =>
          obtain ⟨f, c, p, hf, hc, hown, hv, hout, _⟩ :=
            tryBlock_ok w settings request _ out2 st ht
          simp only [Except.ok.injEq] at h
          subst h
          exact ⟨rfl, f, c, p, hf, hc, hown, hv, hout⟩
        | error e =>
          rcases catchBlock_result e st (request.state.get settings.name) with
            ⟨_, hcb⟩ | ⟨_, u, e2, _, _, hcb⟩
          · simp only [hcb] at h
            cases h
          · simp only [hcb] at h
            cases h
  · rintro ⟨hs, f, c, p, hf, hc, hown, hv, hout⟩
    rw [authenticate_valid w settings request f c p hs hf hc hown hv, hout]

/-- C19, the code at the failing inputs: `authenticate` throws although no
system error was raised in the validation attempt. Without a session cookie no
attempt is made at all, and with a callback rejecting with a plain `Error` the
error of the attempt is not a system error; in both runs the toolkit refuses
the error handed to `h.response` and the run throws its assertion error
instead of returning an Unauthenticated response. -/
theorem authenticate_raises_without_system_error :
    (authenticate (Examples.resolving (JSVal.object [("valid", JSVal.bool true)]))
        Examples.settings Examples.requestNoCookie).validateCalls = [] ∧
    (authenticate (Examples.resolving (JSVal.object [("valid", JSVal.bool true)]))
        Examples.settings Examples.requestNoCookie).result =
      Except.error (JSVal.mkError ErrClass.HoekError "Cannot wrap an error") ∧
    (tryBlock (Examples.rejecting (JSVal.mkError ErrClass.Error "lookup failed"))
        Examples.settings Examples.request (JSVal.str "abc")).1 =
      Except.error (JSVal.mkError ErrClass.Error "lookup failed") ∧
    Bounce.isSystem (JSVal.mkError ErrClass.Error "lookup failed") = false ∧
    (authenticate (Examples.rejecting (JSVal.mkError ErrClass.Error "lookup failed"))
        Examples.settings Examples.request).result =
      Except.error (JSVal.mkError ErrClass.HoekError "Cannot wrap an error") := by
  decide

/-- A session cookie holding a falsy value is treated like an absent one: the
run equals the run on the request without that cookie and the callback is not
called; and in every Authenticated outcome credentials and artifacts are both
truthy. -/
theorem authenticate_falsy_like_absent (w : World) (settings : Settings) (request : Request) :
    ((request.state.get settings.name).truthy = false →
      authenticate w settings request =
          authenticate w settings ⟨request.state.erase settings.name⟩ ∧
        (authenticate w settings request).responses =
          [Event.hResponse (Boom.unauthorized none (some "cookie"))] ∧
        (authenticate w settings request).validateCalls = []) ∧
    (∀ c a, (authenticate w settings request).result = Except.ok (Outcome.authenticated c a) →
      c.truthy = true ∧ a.truthy = true) := by
  constructor
  · intro hs
    have hs2 : ((⟨request.state.erase settings.name⟩ : Request).state.get settings.name).truthy
        = false := by
      simp [Props.get_erase_self, JSVal.truthy]
    rw [authenticate_falsy w settings request hs, authenticate_falsy w settings _ hs2]
    simp [AuthRun.validateCalls, Event.isValidateCall, AuthRun.responses, Event.isOutcome]
  · intro c a h
    obtain ⟨hs, f, c2, p, _, _, _, _, hout⟩ :=
      (authenticate_returns_iff w settings request _).1 h
    simp only [Outcome.authenticated.injEq] at hout
    rw [hout.1, hout.2]
    exact ⟨or_truthy _ _ hs, hs⟩

/-- C20, the code at the failing input: a request whose session cookie is the
empty string gets the run of a request without that cookie, and the callback
is not called; but that run hands the missing-credentials error to
`h.response`, which refuses it, so `authenticate` throws the toolkit's
assertion error instead of returning an Unauthenticated outcome. -/
theorem authenticate_falsy_session_throws :
    (⟨Props.ofList [("sid", JSVal.str "")]⟩ : Request).state.has Examples.settings.name = true ∧
    authenticate (Examples.resolving (JSVal.object [("valid", JSVal.bool true)]))
        Examples.settings ⟨Props.ofList [("sid", JSVal.str "")]⟩ =
      authenticate (Examples.resolving (JSVal.object [("valid", JSVal.bool true)]))
        Examples.settings Examples.requestNoCookie ∧
    (authenticate (Examples.resolving (JSVal.object [("valid", JSVal.bool true)]))
        Examples.settings ⟨Props.ofList [("sid", JSVal.str "")]⟩).validateCalls = [] ∧
    (authenticate (Examples.resolving (JSVal.object [("valid", JSVal.bool true)]))
        Examples.settings ⟨Props.ofList [("sid", JSVal.str "")]⟩).responses =
      [Event.hResponse (Boom.unauthorized none (some "cookie"))] ∧
    (authenticate (Examples.resolving (JSVal.object [("valid", JSVal.bool true)]))
        Examples.settings ⟨Props.ofList [("sid", JSVal.str "")]⟩).result =
      Except.error (JSVal.mkError ErrClass.HoekError "Cannot wrap an error") := by
  decide

theorem catchBlock_missing (st : TryState) (session : JSVal) :
    catchBlock (Boom.unauthorized none (some "cookie")) st session =
      ⟨Except.error (JSVal.mkError ErrClass.HoekError "Cannot wrap an error"),
        st.trace ++ [Event.hResponse (Boom.unauthorized none (some "cookie"))]⟩ := by
  rw [catchBlock_passthrough _ st session (by decide) (by decide), hResponse_missing]

theorem authenticate_invalid (w : World) (settings : Settings) (request : Request)
    (f : FuncRef) (c : ObjClass) (p : Props)
    (hs : (request.state.get settings.name).truthy = true)
    (hf : settings.validateFunc = JSVal.func f)
    (hc : w.call f request (request.state.get settings.name) = Completion.resolve (JSVal.obj c p))
    (hown : p.has "valid" = true)
    (hv : (p.get "valid").truthy = false) :
    authenticate w settings request =
      ⟨Except.error (JSVal.mkError ErrClass.HoekError "Cannot wrap an error"),
        [Event.validateFunc request (request.state.get settings.name),
          Event.hResponse (Boom.unauthorized none (some "cookie"))]⟩ := by
  have hrun : authenticate w settings request =
      catchBlock (Boom.unauthorized none (some "cookie"))
        ⟨request.state.get settings.name,
          [Event.validateFunc request (request.state.get settings.name)]⟩
        (request.state.get settings.name) := by
    simp [authenticate, tryBlock, callValidateFunc, hs, hf, hc, Hoek.assert,
      hasOwnProperty, hown, hv, JSVal.typeOf, JSVal.getProp]
  rw [hrun, catchBlock_missing]
  simp

/-- C12, as amended: with a session present, a validation result that is an
object with an own `valid` property whose value is truthy, boolean or not,
raises no error: `authenticate` returns Authenticated with credentials
`result.credentials || session` and artifacts equal to the session. -/
theorem authenticate_any_valid (w : World) (settings : Settings) (request : Request)
    (f : FuncRef) (c : ObjClass) (p : Props)
    (hs : (request.state.get settings.name).truthy = true)
    (hf : settings.validateFunc = JSVal.func f)
    (hc : w.call f request (request.state.get settings.name) = Completion.resolve (JSVal.obj c p))
    (hown : p.has "valid" = true)
    (hv : (p.get "valid").truthy = true) :
    (authenticate w settings request).result =
      Except.ok (Outcome.authenticated
        (JSVal.or (p.get "credentials") (request.state.get settings.name))
        (request.state.get settings.name)) := by
  rw [authenticate_valid w settings request f c p hs hf hc hown hv]

/-- The hypotheses of `authenticate_any_valid` hold for the session `abc` and
the result `{valid: 1}`. -/
theorem authenticate_any_valid_witness :
    (Examples.request.state.get Examples.settings.name).truthy = true ∧
    (JSVal.num 1).typeOf ≠ "boolean" ∧
    (authenticate (Examples.resolving (JSVal.object [("valid", JSVal.num 1)]))
        Examples.settings Examples.request).result =
      Except.ok (Outcome.authenticated (JSVal.str "abc") (JSVal.str "abc")) :=
  ⟨by decide, by decide, authenticate_any_valid
    (Examples.resolving (JSVal.object [("valid", JSVal.num 1)]))
    Examples.settings Examples.request (FuncRef.user 0) ObjClass.plain
    (Props.ofList [("valid", JSVal.num 1)]) (by decide) rfl rfl (by decide) (by decide)⟩

/-- C12, as stated, fails: the result `{valid: 'yes'}`, whose `valid` is present
and not a boolean, raises no error: `authenticate` returns an Authenticated
outcome. -/
theorem authenticate_non_boolean_valid_counterexample :
    (JSVal.object [("valid", JSVal.str "yes")]).getProp "valid" = JSVal.str "yes" ∧
    (JSVal.str "yes").typeOf ≠ "boolean" ∧
    (authenticate (Examples.resolving (JSVal.object [("valid", JSVal.str "yes")]))
        Examples.settings Examples.request).result =
      Except.ok (Outcome.authenticated (JSVal.str "abc") (JSVal.str "abc")) := by
  decide

/-- C13, as amended: with a session present, when the callback resolves
`{valid: false}` the error `authenticate` hands to `h.response` is
`Boom.unauthorized(null, 'cookie')`, the error flagged `isMissing` that is
handed over as well for a request without session cookie. -/
theorem authenticate_invalid_error (w : World) (settings : Settings) (request : Request)
    (f : FuncRef) (c : ObjClass) (p : Props)
    (hs : (request.state.get settings.name).truthy = true)
    (hf : settings.validateFunc = JSVal.func f)
    (hc : w.call f request (request.state.get settings.name) = Completion.resolve (JSVal.obj c p))
    (hv : p.get "valid" = JSVal.bool false) :
    (authenticate w settings request).responses =
        [Event.hResponse (Boom.unauthorized none (some "cookie"))] ∧
      (Boom.unauthorized none (some "cookie")).getProp "isMissing" = JSVal.bool true ∧
      ∀ other : Request, other.state.has settings.name = false →
        (authenticate w settings other).responses = (authenticate w settings request).responses := by
  have hown : p.has "valid" = true := Props.has_of_get_ne p "valid" (by rw [hv]; simp)
  have hrun := authenticate_invalid w settings request f c p hs hf hc hown (by rw [hv]; rfl)
  refine ⟨by rw [hrun]; simp [AuthRun.responses, Event.isOutcome], by decide, ?_⟩
  intro other ho
  have hu : (other.state.get settings.name).truthy = false := by
    rw [Props.get_of_has_false _ _ ho]; rfl
  rw [authenticate_falsy w settings other hu, hrun]
  simp [AuthRun.responses, Event.isOutcome]

/-- The hypotheses of `authenticate_invalid_error` hold for the session `abc`
and the result `{valid: false}`. -/
theorem authenticate_invalid_error_witness :
    (Examples.request.state.get Examples.settings.name).truthy = true ∧
    ((authenticate (Examples.resolving (JSVal.object [("valid", JSVal.bool false)]))
        Examples.settings Examples.request).responses =
        [Event.hResponse (Boom.unauthorized none (some "cookie"))] ∧
      (Boom.unauthorized none (some "cookie")).getProp "isMissing" = JSVal.bool true ∧
      ∀ other : Request, other.state.has Examples.settings.name = false →
        (authenticate (Examples.resolving (JSVal.object [("valid", JSVal.bool false)]))
            Examples.settings other).responses =
          (authenticate (Examples.resolving (JSVal.object [("valid", JSVal.bool false)]))
            Examples.settings Examples.request).responses) :=
  ⟨by decide, authenticate_invalid_error
    (Examples.resolving (JSVal.object [("valid", JSVal.bool false)]))
    Examples.settings Examples.request (FuncRef.user 0) ObjClass.plain
    (Props.ofList [("valid", JSVal.bool false)]) (by decide) rfl rfl (by decide)⟩

/-- C13, as stated, fails: for `{valid: false}` the only error handed to the
toolkit is the one a request without session cookie gets, its message is not
`Invalid cookie`, and no Unauthenticated outcome is returned. -/
theorem authenticate_invalid_error_counterexample :
    (authenticate (Examples.resolving (JSVal.object [("valid", JSVal.bool false)]))
        Examples.settings Examples.request).responses =
      [Event.hResponse (Boom.unauthorized none (some "cookie"))] ∧
    (Boom.unauthorized none (some "cookie")).getProp "message" ≠ JSVal.str "Invalid cookie" ∧
    (Boom.unauthorized none (some "cookie")).getProp "message" ≠
      (Boom.unauthorized (some "Invalid cookie") none).getProp "message" ∧
    (authenticate (Examples.resolving (JSVal.object [("valid", JSVal.bool false)]))
        Examples.settings Examples.request).responses =
      (authenticate (Examples.resolving (JSVal.object [("valid", JSVal.bool false)]))
        Examples.settings Examples.requestNoCookie).responses ∧
    (authenticate (Examples.resolving (JSVal.object [("valid", JSVal.bool false)]))
        Examples.settings Examples.request).result =
      Except.error (JSVal.mkError ErrClass.HoekError "Cannot wrap an error") := by
  decide

/-- C14, as amended: with a session present, when the callback rejects with a
boom error that carries the marker of `Boom.unauthorized` (its `typeof` is
that function), the error `authenticate` hands to `h.response` is that very
error: it is neither replaced by an `Invalid cookie` error nor modified. -/
theorem authenticate_unauthorized_passthrough (w : World) (settings : Settings)
    (request : Request) (f : FuncRef) (err : JSVal)
    (hs : (request.state.get settings.name).truthy = true)
    (hf : settings.validateFunc = JSVal.func f)
    (hc : w.call f request (request.state.get settings.name) = Completion.reject err)
    (hboom : Boom.isBoom err = true)
    (htype : err.getProp "typeof" = Boom.unauthorizedFn) :
    (authenticate w settings request).responses = [Event.hResponse err] := by
  rw [authenticate_reject w settings request f err hs hf hc]
  have hb : (err.getProp "isBoom").truthy = true := by
    simp only [Boom.isBoom, Bool.and_eq_true] at hboom
    exact hboom.2
  have hsys : Bounce.isSystem err = false := by
    simp [Bounce.isSystem, hb]
  rw [catchBlock_passthrough err _ _ hsys (by simp [hboom, htype])]
  simp [AuthRun.responses, Event.isOutcome]

/-- The hypotheses of `authenticate_unauthorized_passthrough` hold for a
callback rejecting with `Boom.unauthorized('Session expired')` carrying its own
`data`. -/
theorem authenticate_unauthorized_passthrough_witness :
    (Examples.request.state.get Examples.settings.name).truthy = true ∧
    Boom.isBoom ((Boom.unauthorized (some "Session expired") none).setProp "data"
      (JSVal.str "details")) = true ∧
    (authenticate (Examples.rejecting ((Boom.unauthorized (some "Session expired") none).setProp
        "data" (JSVal.str "details"))) Examples.settings Examples.request).responses =
      [Event.hResponse ((Boom.unauthorized (some "Session expired") none).setProp
        "data" (JSVal.str "details"))] :=
  ⟨by decide, by decide, authenticate_unauthorized_passthrough
    (Examples.rejecting ((Boom.unauthorized (some "Session expired") none).setProp "data"
      (JSVal.str "details")))
    Examples.settings Examples.request (FuncRef.user 0) _ (by decide) rfl rfl (by decide)
    (by decide)⟩

/-- C14, as stated, fails: a 401 boom error without the marker of
`Boom.unauthorized` is not handed on: the error given to `h.response` is a new
`Invalid cookie` error holding the rejected one as `data`; and no
Unauthenticated outcome is returned. -/
theorem authenticate_unauthorized_passthrough_counterexample :
    Boom.isBoom Examples.boomified401 = true ∧
    (Examples.boomified401.getProp "output").getProp "statusCode" = JSVal.num 401 ∧
    (authenticate (Examples.rejecting Examples.boomified401) Examples.settings
        Examples.request).responses =
      [Event.hResponse ((Boom.unauthorized (some "Invalid cookie") none).setProp "data"
        Examples.boomified401)] ∧
    (Boom.unauthorized (some "Invalid cookie") none).setProp "data" Examples.boomified401 ≠
      Examples.boomified401 ∧
    (authenticate (Examples.rejecting Examples.boomified401) Examples.settings
        Examples.request).result =
      Except.error (JSVal.mkError ErrClass.HoekError "Cannot wrap an error") := by
  decide

/-- C16, the code at the failing input: the decoration of a request stores the
toolkit handed to `onPreAuth`, but declares no method: calling `set` or
`clear` on it throws a `TypeError` and writes no cookie. -/
theorem decoration_has_no_methods :
    CookieAuth.methodNames = [] ∧
    (onPreAuth (decoration Examples.settings Examples.request) ⟨1⟩).h = some ⟨1⟩ ∧
    CookieAuth.invoke (onPreAuth (decoration Examples.settings Examples.request) ⟨1⟩) "set"
        [JSVal.str "abc"] =
      Except.error (JSVal.mkError ErrClass.TypeError "set is not a function") ∧
    CookieAuth.invoke (onPreAuth (decoration Examples.settings Examples.request) ⟨1⟩) "clear" [] =
      Except.error (JSVal.mkError ErrClass.TypeError "clear is not a function") := by
  decide

theorem Props.mem_keys_of_has : ∀ (p : Props) (key : String), p.has key = true → key ∈ p.keys
  | Props.nil, _, h => by simp [Props.has] at h
  | Props.cons k v rest, key, h => by
    by_cases hk : k = key
    · simp [Props.keys, hk]
    · simp only [Props.has, hk, if_false] at h
      simp only [Props.keys, List.mem_cons]
      exact Or.inr (Props.mem_keys_of_has rest key h)

theorem attempt_ok (co : Coercions) (options : JSVal) (v : Validated)
    (h : Validate.attempt co options = Except.ok v) :
    ∃ c p, Validate.asObject co options = some (c, p) ∧
      Validate.cookieKey co (p.get "cookie") = Except.ok (v.cookieClass, v.cookie, v.name) ∧
      Validate.keepAliveKey co (v.cookie.get "ttl") (p.get "keepAlive") = Except.ok v.keepAlive ∧
      Validate.stringKey "requestDecoratorName" "cookieAuth" (p.get "requestDecoratorName") =
        Except.ok v.requestDecoratorName ∧
      Validate.funcKey "validateFunc" (p.get "validateFunc") = Except.ok v.validateFunc ∧
      p.keys.find? (fun k => !Validate.knownKeys.contains k) = none := by
  unfold Validate.attempt at h
  split at h
  · simp at h
  · split at h
    · simp at h
    · rename_i c p hobj
      split at h
      · simp at h
      · rename_i c1 cookie name hck
        split at h
        · simp at h
        · rename_i keepAlive hka
          split at h
          · simp at h
          · rename_i decoratorName hdn
            split at h
            · simp at h
            · rename_i validateFunc hvf
              split at h
              · simp at h
              · rename_i hfind
                simp only [Except.ok.injEq] at h
                subst h
                exact ⟨c, p, hobj, hck, hka, hdn, hvf, hfind⟩

theorem cookieKey_ok (co : Coercions) (x : JSVal) (c : ObjClass) (cookie : Props) (name : String)
    (h : Validate.cookieKey co x = Except.ok (c, cookie, name)) :
    cookie.get "ignoreErrors" = JSVal.bool true ∧ cookie.get "name" = JSVal.str name := by
  simp only [Validate.cookieKey] at h
  split at h
  · simp at h
  · split at h
    · simp at h
    · split at h
      · simp at h
      · rename_i ie hie
        simp only [Except.ok.injEq, Prod.mk.injEq] at h
        obtain ⟨_, hcookie, hname⟩ := h
        have hie2 : ie = true := by
          unfold Validate.onlyTrue at hie
          split at hie <;> simp at hie <;> exact hie
        subst hcookie
        subst hname
        subst hie2
        refine ⟨by simp [Props.set, Props.get], ?_⟩
        rw [Props.get_set_ne _ _ _ _ (by decide)]
        simp [Props.set, Props.get]

theorem stringKey_str (label dflt N name : String)
    (h : Validate.stringKey label dflt (JSVal.str N) = Except.ok name) : name = N := by
  simp only [Validate.stringKey] at h
  split at h
  · simp at h
  · simp at h
    exact h.symm

theorem cookieKey_name (co : Coercions) (cc : ObjClass) (cp : Props) (c : ObjClass)
    (cookie : Props) (name N : String)
    (hN : cp.get "name" = JSVal.str N)
    (h : Validate.cookieKey co (JSVal.obj cc cp) = Except.ok (c, cookie, name)) :
    name = N := by
  simp only [Validate.cookieKey, Validate.asObject] at h
  split at h
  · simp at h
  · rename_i c0 p0 hobj
    split at hobj
    · simp at hobj
    · simp at hobj
      obtain ⟨_, rfl⟩ := hobj
      split at h
      · simp at h
      · rename_i name0 hname0
        rw [hN] at hname0
        have hn := stringKey_str _ _ _ _ hname0
        split at h
        · simp at h
        · simp at h
          rw [← h.2.2, hn]

theorem normalizeAppendNext_undefined (settings : Settings)
    (h : settings.appendNext = JSVal.undefined) :
    normalizeAppendNext settings = Except.ok settings := by
  simp [normalizeAppendNext, h, JSVal.typeOf]

theorem implementation_ok (co : Coercions) (server : Server) (options : JSVal)
    (settings : Settings)
    (h : (implementation co server options).result = Except.ok settings) :
    ∃ v definition, Validate.attempt co options = Except.ok v ∧
      server.state v.name (JSVal.obj v.cookieClass (v.cookie.erase "name")) =
        Except.ok definition ∧
      settings = ⟨v.name, definition, v.keepAlive, v.requestDecoratorName, v.validateFunc,
        JSVal.undefined, JSVal.undefined⟩ := by
  unfold implementation at h
  split at h
  · simp at h
  · rename_i v hatt
    simp only at h
    split at h
    · simp at h
    · rename_i definition hstate
      rw [normalizeAppendNext_undefined _ rfl] at h
      simp only at h
      split at h
      · simp at h
      · simp only [Except.ok.injEq] at h
        exact ⟨v, definition, hatt, hstate, h.symm⟩

theorem implementation_state_calls (co : Coercions) (server : Server) (options : JSVal)
    (name : String) (opts : JSVal)
    (h : ServerCall.state name opts ∈ (implementation co server options).calls) :
    ∃ v, Validate.attempt co options = Except.ok v ∧ name = v.name ∧
      opts = JSVal.obj v.cookieClass (v.cookie.erase "name") := by
  unfold implementation at h
  split at h
  · simp at h
  · rename_i v hatt
    refine ⟨v, hatt, ?_⟩
    simp only at h
    split at h
    · simpa using h
    · rw [normalizeAppendNext_undefined _ rfl] at h
      simp only at h
      split at h <;> simpa using h

/-- C15: every cookie definition the factory registers through `server.state`
has `ignoreErrors` equal to `true`, whatever the configuration supplied. -/
theorem implementation_ignoreErrors (co : Coercions) (server : Server) (options : JSVal)
    (name : String) (opts : JSVal)
    (h : ServerCall.state name opts ∈ (implementation co server options).calls) :
    opts.getProp "ignoreErrors" = JSVal.bool true := by
  obtain ⟨v, hatt, _, hopts⟩ := implementation_state_calls co server options name opts h
  obtain ⟨c, p, _, hck, _⟩ := attempt_ok co options v hatt
  rw [hopts]
  simp only [JSVal.getProp]
  rw [Props.get_erase_ne _ _ _ (by decide)]
  exact (cookieKey_ok co _ _ _ _ hck).1

theorem validateCalls_of_truthy (w : World) (settings : Settings) (request : Request)
    (f : FuncRef)
    (hs : (request.state.get settings.name).truthy = true)
    (hf : settings.validateFunc = JSVal.func f) :
    (authenticate w settings request).validateCalls =
      [Event.validateFunc request (request.state.get settings.name)] := by
  rw [authenticate_truthy w settings request hs]
  cases ht : tryBlock w settings request (request.state.get settings.name) with
  | mk res st =>
    cases res with
    | ok out =>
      obtain ⟨_, _, _, _, _, _, _, _, htr⟩ := tryBlock_ok w settings request _ out st ht
      simp only [AuthRun.validateCalls, htr]
      cases settings.keepAlive <;> simp [Event.isValidateCall]
    | error e =>
      simp only [catchBlock_validateCalls]
      rcases tryBlock_error w settings request _ e st ht with ⟨_, hnf⟩ | ⟨htr, _⟩
      · exact absurd hf (hnf f)
      · rw [htr]
        simp [Event.isValidateCall]

/-- A configuration object with an own `appendNext` key is rejected: the
factory throws and makes no call on the server. -/
theorem implementation_rejects_appendNext (co : Coercions) (server : Server) (options : JSVal)
    (c : ObjClass) (p : Props)
    (ho : Validate.asObject co options = some (c, p))
    (h : p.has "appendNext" = true) :
    ∃ e, implementation co server options = ⟨Except.error e, []⟩ := by
  cases hatt : Validate.attempt co options with
  | error e => exact ⟨e, implementation_of_attempt_error co server options e hatt⟩
  | ok v =>
    exfalso
    obtain ⟨c2, p2, ho2, _, _, _, _, hfind⟩ := attempt_ok co options v hatt
    rw [ho] at ho2
    simp only [Option.some.injEq, Prod.mk.injEq] at ho2
    obtain ⟨_, rfl⟩ := ho2
    rw [List.find?_eq_none] at hfind
    have := hfind "appendNext" (Props.mem_keys_of_has p "appendNext" h)
    revert this
    decide

/-- C11, the code at the failing input: a configuration carrying `appendNext`
(`true`, `false`, `{name: 'dest', raw: true}` or `{raw: true}`) is rejected by
the schema, which declares no such key, so the factory throws and returns no
scheme; the normalisation of lines 62-69 would give `next` and `dest` with
`appendNextRaw` set, but is never reached with a defined `appendNext`. -/
theorem implementation_appendNext_rejected :
    (implementation Examples.noCoercions Examples.server
        (JSVal.object [("validateFunc", JSVal.func (FuncRef.user 0)),
          ("appendNext", JSVal.bool true)])) =
      ⟨Except.error (Validate.validationError "appendNext is not allowed"), []⟩ ∧
    (implementation Examples.noCoercions Examples.server
        (JSVal.object [("validateFunc", JSVal.func (FuncRef.user 0)),
          ("appendNext", JSVal.bool false)])) =
      ⟨Except.error (Validate.validationError "appendNext is not allowed"), []⟩ ∧
    (implementation Examples.noCoercions Examples.server
        (JSVal.object [("validateFunc", JSVal.func (FuncRef.user 0)),
          ("appendNext", JSVal.object [("name", JSVal.str "dest"), ("raw", JSVal.bool true)])])) =
      ⟨Except.error (Validate.validationError "appendNext is not allowed"), []⟩ ∧
    (implementation Examples.noCoercions Examples.server
        (JSVal.object [("validateFunc", JSVal.func (FuncRef.user 0)),
          ("appendNext", JSVal.object [("raw", JSVal.bool true)])])) =
      ⟨Except.error (Validate.validationError "appendNext is not allowed"), []⟩ ∧
    normalizeAppendNext { Examples.settings with appendNext := JSVal.bool true } =
      Except.ok { Examples.settings with appendNext := JSVal.str "next" } ∧
    normalizeAppendNext { Examples.settings with
        appendNext := JSVal.object [("name", JSVal.str "dest"), ("raw", JSVal.bool true)] } =
      Except.ok { Examples.settings with
        appendNext := JSVal.str "dest", appendNextRaw := JSVal.bool true } := by
  decide

/-- The hypothesis of `implementation_ignoreErrors` holds for a configuration
with `cookie.ttl` set. -/
theorem implementation_ignoreErrors_witness :
    ServerCall.state "sid" (JSVal.object [("ignoreErrors", JSVal.bool true), ("ttl", JSVal.num 60)]) ∈
      (implementation Examples.noCoercions Examples.server
        (JSVal.object [("validateFunc", JSVal.func (FuncRef.user 0)),
          ("cookie", JSVal.object [("ttl", JSVal.num 60)])])).calls ∧
    (JSVal.object [("ignoreErrors", JSVal.bool true), ("ttl", JSVal.num 60)]).getProp
      "ignoreErrors" = JSVal.bool true :=
  ⟨by decide, implementation_ignoreErrors Examples.noCoercions Examples.server
    (JSVal.object [("validateFunc", JSVal.func (FuncRef.user 0)),
      ("cookie", JSVal.object [("ttl", JSVal.num 60)])]) "sid" _ (by decide)⟩

/-- C18: on a server that accepts the cookie definition and the decoration, a
configuration supplying only `validateFunc` yields settings with cookie name
`sid`, `keepAlive` off and decorator name `cookieAuth`; and for an accepted
configuration with `cookie.name = N` the settings name is `N`, which is the
key `authenticate` reads the session from. -/
theorem implementation_defaults_and_name :
    (∀ (co : Coercions) (server : Server) (f : FuncRef) (definition : JSVal),
      server.state "sid" (JSVal.object [("ignoreErrors", JSVal.bool true)]) =
        Except.ok definition →
      server.decorate "cookieAuth" = Except.ok () →
      (implementation co server (JSVal.object [("validateFunc", JSVal.func f)])).result =
        Except.ok ⟨"sid", definition, false, "cookieAuth", JSVal.func f, JSVal.undefined,
          JSVal.undefined⟩) ∧
    (∀ (co : Coercions) (server : Server) (options : JSVal) (c cc : ObjClass) (p cp : Props)
        (N : String) (settings : Settings),
      Validate.asObject co options = some (c, p) →
      p.get "cookie" = JSVal.obj cc cp →
      cp.get "name" = JSVal.str N →
      (implementation co server options).result = Except.ok settings →
      settings.name = N ∧
        ∀ (w : World) (request : Request),
          (request.state.has N = false →
            (authenticate w settings request).validateCalls = [] ∧
              (authenticate w settings request).responses =
                [Event.hResponse (Boom.unauthorized none (some "cookie"))]) ∧
          ((request.state.get N).truthy = true →
            ∀ f, settings.validateFunc = JSVal.func f →
              (authenticate w settings request).validateCalls =
                [Event.validateFunc request (request.state.get N)])) := by
  constructor
  · intro co server f definition hst hdec
    have hatt : Validate.attempt co (JSVal.object [("validateFunc", JSVal.func f)]) =
        Except.ok ⟨ObjClass.plain,
          Props.ofList [("ignoreErrors", JSVal.bool true), ("name", JSVal.str "sid")],
          "sid", false, "cookieAuth", JSVal.func f⟩ := rfl
    have hcookie : JSVal.obj ObjClass.plain
        ((Props.ofList [("ignoreErrors", JSVal.bool true), ("name", JSVal.str "sid")]).erase "name")
        = JSVal.object [("ignoreErrors", JSVal.bool true)] := by decide
    simp only [implementation, hatt, hcookie, hst]
    rw [normalizeAppendNext_undefined _ rfl]
    simp only [hdec]
  · intro co server options c cc p cp N settings ho hcookie hN hres
    obtain ⟨v, definition, hatt, _, hset⟩ := implementation_ok co server options settings hres
    obtain ⟨c2, p2, ho2, hck, _⟩ := attempt_ok co options v hatt
    rw [ho] at ho2
    simp only [Option.some.injEq, Prod.mk.injEq] at ho2
    obtain ⟨_, rfl⟩ := ho2
    rw [hcookie] at hck
    have hname : v.name = N := cookieKey_name co cc cp _ _ _ N hN hck
    have hsn : settings.name = N := by rw [hset]; exact hname
    refine ⟨hsn, ?_⟩
    intro w request
    constructor
    · intro hhas
      have hu : (request.state.get settings.name).truthy = false := by
        rw [hsn, Props.get_of_has_false _ _ hhas]; rfl
      rw [authenticate_falsy w settings request hu]
      simp [AuthRun.validateCalls, Event.isValidateCall, AuthRun.responses, Event.isOutcome]
    · intro hs f hf
      have := validateCalls_of_truthy w settings request f (by rw [hsn]; exact hs) hf
      rw [hsn] at this
      exact this

/-- The hypotheses of `implementation_defaults_and_name` hold on the example
server, for the configuration with only `validateFunc` and for one naming the
cookie `session`. -/
theorem implementation_defaults_and_name_witness :
    Examples.server.state "sid" (JSVal.object [("ignoreErrors", JSVal.bool true)]) =
      Except.ok (JSVal.object [("ignoreErrors", JSVal.bool true)]) ∧
    (implementation Examples.noCoercions Examples.server
        (JSVal.object [("validateFunc", JSVal.func (FuncRef.user 0))])).result =
      Except.ok ⟨"sid", JSVal.object [("ignoreErrors", JSVal.bool true)], false, "cookieAuth",
        JSVal.func (FuncRef.user 0), JSVal.undefined, JSVal.undefined⟩ ∧
    (⟨"session", JSVal.object [("ignoreErrors", JSVal.bool true)], false, "cookieAuth",
        JSVal.func (FuncRef.user 0), JSVal.undefined, JSVal.undefined⟩ : Settings).name =
      "session" :=
  ⟨rfl,
   implementation_defaults_and_name.1 Examples.noCoercions Examples.server (FuncRef.user 0) _
     rfl rfl,
   (implementation_defaults_and_name.2 Examples.noCoercions Examples.server
     (JSVal.object [("validateFunc", JSVal.func (FuncRef.user 0)),
       ("cookie", JSVal.object [("name", JSVal.str "session")])])
     ObjClass.plain ObjClass.plain
     (Props.ofList [("validateFunc", JSVal.func (FuncRef.user 0)),
       ("cookie", JSVal.object [("name", JSVal.str "session")])])
     (Props.ofList [("name", JSVal.str "session")]) "session"
     ⟨"session", JSVal.object [("ignoreErrors", JSVal.bool true)], false, "cookieAuth",
        JSVal.func (FuncRef.user 0), JSVal.undefined, JSVal.undefined⟩
     (by decide) (by decide) (by decide) (by decide)).1⟩

/-- The hypotheses of `authenticate_validate_once` hold for the session `abc`
and a callback resolving `{valid: true}`: it is called once, with the request
and the session. -/
theorem authenticate_validate_once_witness :
    (Examples.request.state.get Examples.settings.name).truthy = true ∧
    (authenticate (Examples.resolving (JSVal.object [("valid", JSVal.bool true)]))
        Examples.settings Examples.request).validateCalls =
      [Event.validateFunc Examples.request (JSVal.str "abc")] :=
  ⟨by decide, (authenticate_validate_once
    (Examples.resolving (JSVal.object [("valid", JSVal.bool true)]))
    Examples.settings Examples.request).2 (by decide) ⟨FuncRef.user 0, rfl⟩⟩

end Cookie
